import Mathlib

/-!
# Verification of the Gumloop MCP server adapter (`src/index.ts`)

This file gives a shallow embedding of the adapter in `src/index.ts`:
the zod validation schemas, the `GumloopAPI` request builder
(`makeRequest`), the response normalisation, and the
`CallToolRequestSchema` dispatch handler; theorems about these
definitions settle the specification's claims.

Conventions of the embedding:
* A JSON value is modelled by `GML.Json`; a raw argument mapping
  (`request.params.arguments`) is a list of key/value pairs, in which a
  key that the caller omitted (JavaScript `undefined`) simply does not
  occur.
* Each zod schema becomes a `parse` function returning
  `Except VErr <validated args>`, checking the declared fields in shape
  order and then running the `.refine` predicate, exactly as
  `Schema.parse` does; `VErr` models the violated-constraint message of
  the resulting `ZodError`.
* JavaScript truthiness on an optional string (`data.user_id ||
  data.project_id`) is `truthy`: an absent value and the empty string
  are falsy.
* `makeRequest` is split into its two halves: building the outbound
  `RemoteRequest` (method, URL, query string, JSON body, headers) and
  normalising an `HttpResponse` into a parsed JSON document or a raw
  buffer (`makeRequestResult`).
* The `switch` in the `CallToolRequestSchema` handler becomes
  `runTool` / `handleToolCall`, with the surrounding `try`/`catch`
  turning any thrown error into an `isError` result.
-/

namespace GML

/-- A JSON value, as carried in tool-call arguments and HTTP bodies. -/
inductive Json where
  | null : Json
  | bool (b : Bool) : Json
  | num (n : Int) : Json
  | str (s : String) : Json
  | arr (elems : List Json) : Json
  | obj (fields : List (String × Json)) : Json

/-- A raw argument mapping (`request.params.arguments`): keys the caller
supplied, with their JSON values.  An omitted key (JS `undefined`) does
not occur in the list. -/
abbrev Args := List (String × Json)

/-- Look up a key in an argument mapping (JS property access). -/
def getField (args : Args) (key : String) : Option Json :=
  (args.find? (fun p => p.1 == key)).map (fun p => p.2)

/-- A validation error: the message zod attaches to the violated
constraint (missing required field, wrong type, or failed `.refine`). -/
structure VErr where
  message : String
deriving DecidableEq, Repr

/-- `z.string()` on a required field: the key must be present and hold a
string. -/
def reqString (args : Args) (key : String) : Except VErr String :=
  match getField args key with
  | none => .error ⟨"Required: " ++ key⟩
  | some (.str s) => .ok s
  | some _ => .error ⟨"Expected string: " ++ key⟩

/-- `z.string().optional()`: an absent key parses to `none`; a present
key must hold a string. -/
def optString (args : Args) (key : String) : Except VErr (Option String) :=
  match getField args key with
  | none => .ok none
  | some (.str s) => .ok (some s)
  | some _ => .error ⟨"Expected string: " ++ key⟩

/-- JS truthiness of an optional string: `undefined` and `""` are falsy,
every other string is truthy. -/
def truthy : Option String → Bool
  | none => false
  | some s => !s.isEmpty

/-- The message of every `.refine((data) => data.user_id || data.project_id)`
in the source. -/
def eitherOrMsg : String := "Either user_id or project_id is required"

/-- One element of `pipeline_inputs`: `{input_name, value}`. -/
structure PipelineInput where
  input_name : String
  value : String
deriving DecidableEq, Repr

/-- Parse one element of the `pipeline_inputs` array. -/
def parsePipelineInput (j : Json) : Except VErr PipelineInput :=
  match j with
  | .obj fields =>
    match reqString fields "input_name" with
    | .error e => .error e
    | .ok n =>
      match reqString fields "value" with
      | .error e => .error e
      | .ok v => .ok ⟨n, v⟩
  | _ => .error ⟨"Expected object: pipeline_inputs element"⟩

/-- Parse the elements of a `z.array(...)` of pipeline inputs. -/
def parsePipelineInputList : List Json → Except VErr (List PipelineInput)
  | [] => .ok []
  | j :: rest =>
    match parsePipelineInput j with
    | .error e => .error e
    | .ok p =>
      match parsePipelineInputList rest with
      | .error e => .error e
      | .ok ps => .ok (p :: ps)

/-- `z.array(z.object({input_name, value})).optional()`. -/
def optPipelineInputs (args : Args) (key : String) :
    Except VErr (Option (List PipelineInput)) :=
  match getField args key with
  | none => .ok none
  | some (.arr js) =>
    match parsePipelineInputList js with
    | .error e => .error e
    | .ok ps => .ok (some ps)
  | some _ => .error ⟨"Expected array: " ++ key⟩

/-- One element of `files`: `{file_name, file_content}`. -/
structure FileEntry where
  file_name : String
  file_content : String
deriving DecidableEq, Repr

/-- Parse one element of the `files` array. -/
def parseFileEntry (j : Json) : Except VErr FileEntry :=
  match j with
  | .obj fields =>
    match reqString fields "file_name" with
    | .error e => .error e
    | .ok n =>
      match reqString fields "file_content" with
      | .error e => .error e
      | .ok c => .ok ⟨n, c⟩
  | _ => .error ⟨"Expected object: files element"⟩

/-- Parse the elements of the `files` array. -/
def parseFileEntryList : List Json → Except VErr (List FileEntry)
  | [] => .ok []
  | j :: rest =>
    match parseFileEntry j with
    | .error e => .error e
    | .ok f =>
      match parseFileEntryList rest with
      | .error e => .error e
      | .ok fs => .ok (f :: fs)

/-- `z.array(z.object({file_name, file_content}))` on a required field. -/
def reqFiles (args : Args) (key : String) : Except VErr (List FileEntry) :=
  match getField args key with
  | none => .error ⟨"Required: " ++ key⟩
  | some (.arr js) => parseFileEntryList js
  | some _ => .error ⟨"Expected array: " ++ key⟩

/-- Parse the elements of a `z.array(z.string())`. -/
def parseStringList : List Json → Except VErr (List String)
  | [] => .ok []
  | .str s :: rest =>
    match parseStringList rest with
    | .error e => .error e
    | .ok ss => .ok (s :: ss)
  | _ :: _ => .error ⟨"Expected string: array element"⟩

/-- `z.array(z.string())` on a required field. -/
def reqStringArray (args : Args) (key : String) : Except VErr (List String) :=
  match getField args key with
  | none => .error ⟨"Required: " ++ key⟩
  | some (.arr js) => parseStringList js
  | some _ => .error ⟨"Expected array: " ++ key⟩

/-! ## The nine validation schemas -/

/-- Output of `StartAutomationSchema.parse`. -/
structure StartAutomationArgs where
  user_id : String
  saved_item_id : String
  project_id : Option String
  pipeline_inputs : Option (List PipelineInput)
deriving DecidableEq, Repr

/-- `StartAutomationSchema.parse`: `user_id` and `saved_item_id`
required strings, `project_id` and `pipeline_inputs` optional. -/
def StartAutomationSchema.parse (args : Args) :
    Except VErr StartAutomationArgs :=
  match reqString args "user_id" with
  | .error e => .error e
  | .ok user_id =>
    match reqString args "saved_item_id" with
    | .error e => .error e
    | .ok saved_item_id =>
      match optString args "project_id" with
      | .error e => .error e
      | .ok project_id =>
        match optPipelineInputs args "pipeline_inputs" with
        | .error e => .error e
        | .ok pipeline_inputs =>
          .ok ⟨user_id, saved_item_id, project_id, pipeline_inputs⟩

/-- Output of `RetrieveRunDetailsSchema.parse`. -/
structure RetrieveRunDetailsArgs where
  run_id : String
  user_id : Option String
  project_id : Option String
deriving DecidableEq, Repr

/-- `RetrieveRunDetailsSchema.parse`: `run_id` required, then the
`.refine((data) => data.user_id || data.project_id)` check. -/
def RetrieveRunDetailsSchema.parse (args : Args) :
    Except VErr RetrieveRunDetailsArgs :=
  match reqString args "run_id" with
  | .error e => .error e
  | .ok run_id =>
    match optString args "user_id" with
    | .error e => .error e
    | .ok user_id =>
      match optString args "project_id" with
      | .error e => .error e
      | .ok project_id =>
        if truthy user_id || truthy project_id then
          .ok ⟨run_id, user_id, project_id⟩
        else
          .error ⟨eitherOrMsg⟩

/-- Output of `ListSavedFlowsSchema.parse`. -/
structure ListSavedFlowsArgs where
  user_id : Option String
  project_id : Option String
deriving DecidableEq, Repr

/-- `ListSavedFlowsSchema.parse`: both fields optional, plus the
either/or `.refine`. -/
def ListSavedFlowsSchema.parse (args : Args) :
    Except VErr ListSavedFlowsArgs :=
  match optString args "user_id" with
  | .error e => .error e
  | .ok user_id =>
    match optString args "project_id" with
    | .error e => .error e
    | .ok project_id =>
      if truthy user_id || truthy project_id then
        .ok ⟨user_id, project_id⟩
      else
        .error ⟨eitherOrMsg⟩

/-- Output of `ListWorkbooksSchema.parse`. -/
structure ListWorkbooksArgs where
  user_id : Option String
  project_id : Option String
deriving DecidableEq, Repr

/-- `ListWorkbooksSchema.parse`: both fields optional, plus the
either/or `.refine`. -/
def ListWorkbooksSchema.parse (args : Args) :
    Except VErr ListWorkbooksArgs :=
  match optString args "user_id" with
  | .error e => .error e
  | .ok user_id =>
    match optString args "project_id" with
    | .error e => .error e
    | .ok project_id =>
      if truthy user_id || truthy project_id then
        .ok ⟨user_id, project_id⟩
      else
        .error ⟨eitherOrMsg⟩

/-- Output of `RetrieveInputSchemaSchema.parse`. -/
structure RetrieveInputSchemaArgs where
  saved_item_id : String
  user_id : Option String
  project_id : Option String
deriving DecidableEq, Repr

/-- `RetrieveInputSchemaSchema.parse`: `saved_item_id` required, plus
the either/or `.refine`. -/
def RetrieveInputSchemaSchema.parse (args : Args) :
    Except VErr RetrieveInputSchemaArgs :=
  match reqString args "saved_item_id" with
  | .error e => .error e
  | .ok saved_item_id =>
    match optString args "user_id" with
    | .error e => .error e
    | .ok user_id =>
      match optString args "project_id" with
      | .error e => .error e
      | .ok project_id =>
        if truthy user_id || truthy project_id then
          .ok ⟨saved_item_id, user_id, project_id⟩
        else
          .error ⟨eitherOrMsg⟩

/-- Output of `UploadFileSchema.parse`. -/
structure UploadFileArgs where
  file_name : String
  file_content : String
  user_id : Option String
  project_id : Option String
deriving DecidableEq, Repr

/-- `UploadFileSchema.parse`: `file_name` and `file_content` required,
plus the either/or `.refine`. -/
def UploadFileSchema.parse (args : Args) : Except VErr UploadFileArgs :=
  match reqString args "file_name" with
  | .error e => .error e
  | .ok file_name =>
    match reqString args "file_content" with
    | .error e => .error e
    | .ok file_content =>
      match optString args "user_id" with
      | .error e => .error e
      | .ok user_id =>
        match optString args "project_id" with
        | .error e => .error e
        | .ok project_id =>
          if truthy user_id || truthy project_id then
            .ok ⟨file_name, file_content, user_id, project_id⟩
          else
            .error ⟨eitherOrMsg⟩

/-- Output of `UploadMultipleFilesSchema.parse`. -/
structure UploadMultipleFilesArgs where
  files : List FileEntry
  user_id : Option String
  project_id : Option String
deriving DecidableEq, Repr

/-- `UploadMultipleFilesSchema.parse`: `files` required array of
`{file_name, file_content}`, plus the either/or `.refine`. -/
def UploadMultipleFilesSchema.parse (args : Args) :
    Except VErr UploadMultipleFilesArgs :=
  match reqFiles args "files" with
  | .error e => .error e
  | .ok files =>
    match optString args "user_id" with
    | .error e => .error e
    | .ok user_id =>
      match optString args "project_id" with
      | .error e => .error e
      | .ok project_id =>
        if truthy user_id || truthy project_id then
          .ok ⟨files, user_id, project_id⟩
        else
          .error ⟨eitherOrMsg⟩

/-- Output of `DownloadFileSchema.parse`. -/
structure DownloadFileArgs where
  file_name : String
  run_id : String
  saved_item_id : String
  user_id : Option String
  project_id : Option String
deriving DecidableEq, Repr

/-- `DownloadFileSchema.parse`: `file_name`, `run_id`, `saved_item_id`
required; no `.refine` on this schema. -/
def DownloadFileSchema.parse (args : Args) : Except VErr DownloadFileArgs :=
  match reqString args "file_name" with
  | .error e => .error e
  | .ok file_name =>
    match reqString args "run_id" with
    | .error e => .error e
    | .ok run_id =>
      match reqString args "saved_item_id" with
      | .error e => .error e
      | .ok saved_item_id =>
        match optString args "user_id" with
        | .error e => .error e
        | .ok user_id =>
          match optString args "project_id" with
          | .error e => .error e
          | .ok project_id =>
            .ok ⟨file_name, run_id, saved_item_id, user_id, project_id⟩

/-- Output of `DownloadMultipleFilesSchema.parse`. -/
structure DownloadMultipleFilesArgs where
  file_names : List String
  run_id : String
  user_id : Option String
  project_id : Option String
  saved_item_id : Option String
deriving DecidableEq, Repr

/-- `DownloadMultipleFilesSchema.parse`: `file_names` required string
array, `run_id` required, plus the either/or `.refine`. -/
def DownloadMultipleFilesSchema.parse (args : Args) :
    Except VErr DownloadMultipleFilesArgs :=
  match reqStringArray args "file_names" with
  | .error e => .error e
  | .ok file_names =>
    match reqString args "run_id" with
    | .error e => .error e
    | .ok run_id =>
      match optString args "user_id" with
      | .error e => .error e
      | .ok user_id =>
        match optString args "project_id" with
        | .error e => .error e
        | .ok project_id =>
          match optString args "saved_item_id" with
          | .error e => .error e
          | .ok saved_item_id =>
            if truthy user_id || truthy project_id then
              .ok ⟨file_names, run_id, user_id, project_id, saved_item_id⟩
            else
              .error ⟨eitherOrMsg⟩

/-! ## JavaScript string conversions -/

mutual

/-- Element conversion inside `Array.prototype.toString`: `null` maps to
the empty string there. -/
def jsStrElem : Json → String
  | .null => ""
  | .bool b => cond b "true" "false"
  | .num n => toString n
  | .str s => s
  | .arr xs => jsStrList xs
  | .obj _ => "[object Object]"

/-- `Array.prototype.toString`: elements joined by commas. -/
def jsStrList : List Json → String
  | [] => ""
  | [x] => jsStrElem x
  | x :: y :: xs => jsStrElem x ++ "," ++ jsStrList (y :: xs)

end

/-- JS `String(value)` on a JSON value (used when appending query
parameters). -/
def jsString : Json → String
  | .null => "null"
  | .bool b => cond b "true" "false"
  | .num n => toString n
  | .str s => s
  | .arr xs => jsStrList xs
  | .obj _ => "[object Object]"

/-- Lower-case hexadecimal digit. -/
def hexLower (n : Nat) : Char :=
  if n < 10 then Char.ofNat (48 + n) else Char.ofNat (87 + n)

/-- Upper-case hexadecimal digit. -/
def hexUpper (n : Nat) : Char :=
  if n < 10 then Char.ofNat (48 + n) else Char.ofNat (55 + n)

/-- UTF-8 bytes of one character. -/
def utf8Bytes (c : Char) : List Nat :=
  let n := c.toNat
  if n < 0x80 then [n]
  else if n < 0x800 then [0xC0 + n / 0x40, 0x80 + n % 0x40]
  else if n < 0x10000 then
    [0xE0 + n / 0x1000, 0x80 + (n / 0x40) % 0x40, 0x80 + n % 0x40]
  else
    [0xF0 + n / 0x40000, 0x80 + (n / 0x1000) % 0x40,
     0x80 + (n / 0x40) % 0x40, 0x80 + n % 0x40]

/-- `application/x-www-form-urlencoded` escaping of one character, as
`URLSearchParams.toString` performs: alphanumerics and `*-._` are kept,
a space becomes `+`, anything else is percent-encoded per UTF-8 byte. -/
def formEncodeChar (c : Char) : String :=
  if c.isAlphanum || c = '*' || c = '-' || c = '.' || c = '_' then
    String.singleton c
  else if c = ' ' then "+"
  else
    String.join ((utf8Bytes c).map fun b =>
      String.mk ['%', hexUpper (b / 16), hexUpper (b % 16)])

/-- `application/x-www-form-urlencoded` escaping of a string. -/
def formEncode (s : String) : String :=
  String.join (s.toList.map formEncodeChar)

/-- JSON escaping of one character inside a quoted string
(`JSON.stringify`). -/
def jsonEscapeChar (c : Char) : String :=
  if c = '"' then "\\\""
  else if c = '\\' then "\\\\"
  else if c = '\x08' then "\\b"
  else if c = '\x0c' then "\\f"
  else if c = '\n' then "\\n"
  else if c = '\r' then "\\r"
  else if c = '\t' then "\\t"
  else if c.toNat < 0x20 then
    String.mk ['\\', 'u', '0', '0', hexLower (c.toNat / 16),
               hexLower (c.toNat % 16)]
  else String.singleton c

/-- A JSON string literal with quotes and escapes (`JSON.stringify` on a
string). -/
def jsonQuote (s : String) : String :=
  "\"" ++ String.join (s.toList.map jsonEscapeChar) ++ "\""

mutual

/-- `JSON.stringify(value, null, gap)` with current indentation `ind`:
an empty `gap` gives the compact form, otherwise arrays and objects are
spread over indented lines. -/
def jsonStringify (gap ind : String) : Json → String
  | .null => "null"
  | .bool b => cond b "true" "false"
  | .num n => toString n
  | .str s => jsonQuote s
  | .arr [] => "[]"
  | .arr (x :: xs) =>
    if gap.isEmpty then
      "[" ++ jsonStringifyElems gap ind "," (x :: xs) ++ "]"
    else
      "[\n" ++ (ind ++ gap) ++
        jsonStringifyElems gap (ind ++ gap) (",\n" ++ (ind ++ gap)) (x :: xs) ++
        "\n" ++ ind ++ "]"
  | .obj [] => "\x7b\x7d"
  | .obj (kv :: kvs) =>
    if gap.isEmpty then
      "\x7b" ++ jsonStringifyMembers gap ind "," (kv :: kvs) ++ "\x7d"
    else
      "\x7b\n" ++ (ind ++ gap) ++
        jsonStringifyMembers gap (ind ++ gap) (",\n" ++ (ind ++ gap)) (kv :: kvs) ++
        "\n" ++ ind ++ "\x7d"

/-- Array elements joined by `sep`. -/
def jsonStringifyElems (gap ind sep : String) : List Json → String
  | [] => ""
  | [x] => jsonStringify gap ind x
  | x :: y :: xs =>
    jsonStringify gap ind x ++ sep ++ jsonStringifyElems gap ind sep (y :: xs)

/-- Object members `"key": value` joined by `sep` (no space after the
colon in the compact form). -/
def jsonStringifyMembers (gap ind sep : String) :
    List (String × Json) → String
  | [] => ""
  | [kv] => jsonQuote kv.1 ++ (if gap.isEmpty then ":" else ": ") ++
      jsonStringify gap ind kv.2
  | kv :: kv2 :: kvs =>
    jsonQuote kv.1 ++ (if gap.isEmpty then ":" else ": ") ++
      jsonStringify gap ind kv.2 ++ sep ++
      jsonStringifyMembers gap ind sep (kv2 :: kvs)

end

/-- `JSON.stringify(value, null, 2)`, as the tool-call handler uses to
render a result. -/
def stringify2 (j : Json) : String := jsonStringify "  " "" j

/-- `JSON.stringify(value)`, the compact form used for POST bodies. -/
def stringifyCompact (j : Json) : String := jsonStringify "" "" j

/-! ## The API gateway: building the outbound request -/

/-- HTTP methods the gateway uses. -/
inductive Method where
  | GET : Method
  | POST : Method
deriving DecidableEq, Repr

/-- `GumloopAPI.baseUrl`. -/
def baseUrl : String := "https://api.gumloop.com/api/v1"

/-- The single outbound HTTP request `makeRequest` issues for one tool
invocation: method, endpoint path, full URL (query string included),
the appended query entries, the serialized JSON body if any, and the
headers. -/
structure RemoteRequest where
  method : Method
  path : String
  url : String
  query : List (String × String)
  body : Option String
  headers : List (String × String)
deriving DecidableEq, Repr

/-- The query entries `makeRequest` appends for a GET request: each
field of `data` whose value is neither `undefined` (absent key) nor
`null`, converted by `String(value)`. -/
def queryEntries (data : List (String × Json)) : List (String × String) :=
  data.filterMap fun kv =>
    match kv.2 with
    | .null => none
    | v => some (kv.1, jsString v)

/-- `URLSearchParams.toString()`: entries `key=value`, form-encoded,
joined by `&`. -/
def renderQuery (q : List (String × String)) : String :=
  String.intercalate "&" (q.map fun kv => formEncode kv.1 ++ "=" ++ formEncode kv.2)

/-- The request-building half of `GumloopAPI.makeRequest`: bearer and
content-type headers; for a GET with data, the non-absent fields become
the query string (appended to the URL only when non-empty); otherwise
the data is `JSON.stringify`ed into the body. -/
def makeRequest (apiKey endpoint : String) (method : Method)
    (data : Option (List (String × Json))) : RemoteRequest :=
  let headers := [("Authorization", "Bearer " ++ apiKey),
                  ("Content-Type", "application/json")]
  match method, data with
  | .GET, some d =>
    let q := queryEntries d
    let qs := renderQuery q
    { method := .GET, path := endpoint,
      url := baseUrl ++ endpoint ++ (if qs.isEmpty then "" else "?" ++ qs),
      query := q, body := none, headers := headers }
  | m, some d =>
    { method := m, path := endpoint, url := baseUrl ++ endpoint,
      query := [], body := some (stringifyCompact (.obj d)),
      headers := headers }
  | m, none =>
    { method := m, path := endpoint, url := baseUrl ++ endpoint,
      query := [], body := none, headers := headers }

/-! ## ValidatedArgs as the data object handed to `makeRequest`

zod's parse output contains exactly the shape keys that were present in
the input (an optional field the caller omitted is not added), in shape
declaration order — which is the order `Object.entries` then yields. -/

/-- One pipeline input as a JSON object. -/
def PipelineInput.toJson (p : PipelineInput) : Json :=
  .obj [("input_name", .str p.input_name), ("value", .str p.value)]

/-- One file entry as a JSON object. -/
def FileEntry.toJson (f : FileEntry) : Json :=
  .obj [("file_name", .str f.file_name), ("file_content", .str f.file_content)]

/-- The entry an optional string field contributes: present iff the
field is. -/
def optEntry (key : String) : Option String → List (String × Json)
  | some s => [(key, .str s)]
  | none => []

/-- The data object for a validated `startAutomation` call. -/
def StartAutomationArgs.toData (a : StartAutomationArgs) :
    List (String × Json) :=
  [("user_id", .str a.user_id), ("saved_item_id", .str a.saved_item_id)] ++
  optEntry "project_id" a.project_id ++
  (match a.pipeline_inputs with
   | some ps => [("pipeline_inputs", Json.arr (ps.map PipelineInput.toJson))]
   | none => [])

/-- The data object for a validated `retrieveRunDetails` call. -/
def RetrieveRunDetailsArgs.toData (a : RetrieveRunDetailsArgs) :
    List (String × Json) :=
  [("run_id", .str a.run_id)] ++
  optEntry "user_id" a.user_id ++ optEntry "project_id" a.project_id

/-- The data object for a validated `listSavedFlows` call. -/
def ListSavedFlowsArgs.toData (a : ListSavedFlowsArgs) :
    List (String × Json) :=
  optEntry "user_id" a.user_id ++ optEntry "project_id" a.project_id

/-- The data object for a validated `listWorkbooks` call. -/
def ListWorkbooksArgs.toData (a : ListWorkbooksArgs) :
    List (String × Json) :=
  optEntry "user_id" a.user_id ++ optEntry "project_id" a.project_id

/-- The data object for a validated `retrieveInputSchema` call. -/
def RetrieveInputSchemaArgs.toData (a : RetrieveInputSchemaArgs) :
    List (String × Json) :=
  [("saved_item_id", .str a.saved_item_id)] ++
  optEntry "user_id" a.user_id ++ optEntry "project_id" a.project_id

/-- The data object for a validated `uploadFile` call. -/
def UploadFileArgs.toData (a : UploadFileArgs) : List (String × Json) :=
  [("file_name", .str a.file_name), ("file_content", .str a.file_content)] ++
  optEntry "user_id" a.user_id ++ optEntry "project_id" a.project_id

/-- The data object for a validated `uploadMultipleFiles` call. -/
def UploadMultipleFilesArgs.toData (a : UploadMultipleFilesArgs) :
    List (String × Json) :=
  [("files", Json.arr (a.files.map FileEntry.toJson))] ++
  optEntry "user_id" a.user_id ++ optEntry "project_id" a.project_id

/-- The data object for a validated `downloadFile` call. -/
def DownloadFileArgs.toData (a : DownloadFileArgs) : List (String × Json) :=
  [("file_name", .str a.file_name), ("run_id", .str a.run_id),
   ("saved_item_id", .str a.saved_item_id)] ++
  optEntry "user_id" a.user_id ++ optEntry "project_id" a.project_id

/-- The data object for a validated `downloadMultipleFiles` call. -/
def DownloadMultipleFilesArgs.toData (a : DownloadMultipleFilesArgs) :
    List (String × Json) :=
  [("file_names", Json.arr (a.file_names.map Json.str)),
   ("run_id", .str a.run_id)] ++
  optEntry "user_id" a.user_id ++ optEntry "project_id" a.project_id ++
  optEntry "saved_item_id" a.saved_item_id

/-! ## The nine `GumloopAPI` request builders -/

/-- `GumloopAPI.startAutomation`: POST `/start_pipeline`. -/
def GumloopAPI.startAutomation (apiKey : String) (params : StartAutomationArgs) :
    RemoteRequest :=
  makeRequest apiKey "/start_pipeline" .POST (some params.toData)

/-- `GumloopAPI.retrieveRunDetails`: GET `/get_pl_run`. -/
def GumloopAPI.retrieveRunDetails (apiKey : String)
    (params : RetrieveRunDetailsArgs) : RemoteRequest :=
  makeRequest apiKey "/get_pl_run" .GET (some params.toData)

/-- `GumloopAPI.listSavedFlows`: GET `/list_saved_items`. -/
def GumloopAPI.listSavedFlows (apiKey : String) (params : ListSavedFlowsArgs) :
    RemoteRequest :=
  makeRequest apiKey "/list_saved_items" .GET (some params.toData)

/-- `GumloopAPI.listWorkbooks`: GET `/list_workbooks`. -/
def GumloopAPI.listWorkbooks (apiKey : String) (params : ListWorkbooksArgs) :
    RemoteRequest :=
  makeRequest apiKey "/list_workbooks" .GET (some params.toData)

/-- `GumloopAPI.retrieveInputSchema`: GET `/get_inputs`. -/
def GumloopAPI.retrieveInputSchema (apiKey : String)
    (params : RetrieveInputSchemaArgs) : RemoteRequest :=
  makeRequest apiKey "/get_inputs" .GET (some params.toData)

/-- `GumloopAPI.uploadFile`: POST `/upload_file`. -/
def GumloopAPI.uploadFile (apiKey : String) (params : UploadFileArgs) :
    RemoteRequest :=
  makeRequest apiKey "/upload_file" .POST (some params.toData)

/-- `GumloopAPI.uploadMultipleFiles`: POST `/upload_files`. -/
def GumloopAPI.uploadMultipleFiles (apiKey : String)
    (params : UploadMultipleFilesArgs) : RemoteRequest :=
  makeRequest apiKey "/upload_files" .POST (some params.toData)

/-- `GumloopAPI.downloadFile`: POST `/download_file`. -/
def GumloopAPI.downloadFile (apiKey : String) (params : DownloadFileArgs) :
    RemoteRequest :=
  makeRequest apiKey "/download_file" .POST (some params.toData)

/-- `GumloopAPI.downloadMultipleFiles`: POST `/download_files`. -/
def GumloopAPI.downloadMultipleFiles (apiKey : String)
    (params : DownloadMultipleFilesArgs) : RemoteRequest :=
  makeRequest apiKey "/download_files" .POST (some params.toData)

/-! ## The API gateway: normalising the HTTP response -/

/-- The body of the remote reply: a JSON document (a body that
`response.json()` decodes) or an opaque byte payload. -/
inductive RespBody where
  | jsonDoc (j : Json) : RespBody
  | binary (bytes : List Nat) : RespBody

/-- The remote HTTP reply to the single outbound request. -/
structure HttpResponse where
  status : Nat
  statusText : String
  contentType : Option String
  body : RespBody

/-- `Response.ok`: status in the inclusive range 200–299. -/
def HttpResponse.ok (r : HttpResponse) : Bool :=
  200 ≤ r.status && r.status ≤ 299

/-- Whether `pat` occurs as a contiguous run inside the character
list. -/
def containsSubList (pat : List Char) : List Char → Bool
  | [] => pat.isEmpty
  | c :: rest => pat.isPrefixOf (c :: rest) || containsSubList pat rest

/-- `String.prototype.includes` (used for
`contentType.includes("application/json")`). -/
def strIncludes (s pat : String) : Bool :=
  containsSubList pat.toList s.toList

/-- `response.json()`: succeeds exactly on a JSON-decodable body. -/
def responseJson : RespBody → Except String Json
  | .jsonDoc j => .ok j
  | .binary _ => .error "Unexpected end of JSON input"

/-- `response.arrayBuffer()`: the raw bytes of the body. -/
def responseBuffer : RespBody → List Nat
  | .binary bs => bs
  | .jsonDoc j => ((stringifyCompact j).toList.map Char.toNat)

/-- What `makeRequest` resolves to: a parsed JSON document or a raw
buffer (file downloads). -/
inductive ApiResult where
  | json (j : Json) : ApiResult
  | buffer (bytes : List Nat) : ApiResult

/-- The response half of `GumloopAPI.makeRequest`: on a non-ok status,
throw `Gumloop API request failed: <status> - <statusText>` without
touching the body; on success, parse the body as JSON exactly when the
declared content type includes `application/json`, else return the raw
buffer. -/
def makeRequestResult (resp : HttpResponse) : Except String ApiResult :=
  if resp.ok then
    match resp.contentType with
    | some ct =>
      if strIncludes ct "application/json" then
        match responseJson resp.body with
        | .ok j => .ok (.json j)
        | .error m => .error m
      else .ok (.buffer (responseBuffer resp.body))
    | none => .ok (.buffer (responseBuffer resp.body))
  else
    .error ("Gumloop API request failed: " ++ toString resp.status ++ " - " ++
      resp.statusText)

/-! ## The `CallToolRequestSchema` dispatch handler -/

/-- The value the handler returns for one call: its text content and
the `isError` flag (absent, i.e. `false`, on success). -/
structure ToolResult where
  text : String
  isError : Bool := false
deriving DecidableEq, Repr

/-- An error thrown inside the handler's `try` block: a `ZodError` from
`Schema.parse`, or the `Error` thrown by `makeRequest` on a failing
status. -/
inductive Thrown where
  | validation (e : VErr) : Thrown
  | remote (msg : String) : Thrown
deriving DecidableEq, Repr

/-- `ZodError.message` is `JSON.stringify` of the issue list with
indent 2; modelled here keeping the `message` field of the single
issue. -/
def zodMessage (e : VErr) : String :=
  stringify2 (.arr [.obj [("message", .str e.message)]])

/-- `error.message` of a thrown error. -/
def Thrown.message : Thrown → String
  | .validation e => zodMessage e
  | .remote m => m

/-- `JSON.stringify(result, null, 2)` on what `makeRequest` resolved
to; an `ArrayBuffer` stringifies to `\x7b\x7d`. -/
def stringifyResult : ApiResult → String
  | .json j => stringify2 j
  | .buffer _ => "\x7b\x7d"

/-- Fixed success message of the `downloadFile` case. -/
def downloadFileMsg : String :=
  "File downloaded successfully. Binary data is available but not displayed here."

/-- Fixed success message of the `downloadMultipleFiles` case. -/
def downloadMultipleFilesMsg : String :=
  "Files downloaded successfully as a zip archive. Binary data is available but not displayed here."

/-- The body of the `try` block in the `CallToolRequestSchema` handler:
`switch (request.params.name)`, each case parsing with its schema and
awaiting the gateway; `resp` is the remote's reply to the single
outbound request.  The default case returns the `Unknown tool` error
result without throwing. -/
def runTool (name : String) (args : Args) (resp : HttpResponse) :
    Except Thrown ToolResult :=
  match name with
  | "startAutomation" =>
    match StartAutomationSchema.parse args with
    | .error e => .error (.validation e)
    | .ok _ =>
      match makeRequestResult resp with
      | .error m => .error (.remote m)
      | .ok result => .ok { text := stringifyResult result }
  | "retrieveRunDetails" =>
    match RetrieveRunDetailsSchema.parse args with
    | .error e => .error (.validation e)
    | .ok _ =>
      match makeRequestResult resp with
      | .error m => .error (.remote m)
      | .ok result => .ok { text := stringifyResult result }
  | "listSavedFlows" =>
    match ListSavedFlowsSchema.parse args with
    | .error e => .error (.validation e)
    | .ok _ =>
      match makeRequestResult resp with
      | .error m => .error (.remote m)
      | .ok result => .ok { text := stringifyResult result }
  | "listWorkbooks" =>
    match ListWorkbooksSchema.parse args with
    | .error e => .error (.validation e)
    | .ok _ =>
      match makeRequestResult resp with
      | .error m => .error (.remote m)
      | .ok result => .ok { text := stringifyResult result }
  | "retrieveInputSchema" =>
    match RetrieveInputSchemaSchema.parse args with
    | .error e => .error (.validation e)
    | .ok _ =>
      match makeRequestResult resp with
      | .error m => .error (.remote m)
      | .ok result => .ok { text := stringifyResult result }
  | "uploadFile" =>
    match UploadFileSchema.parse args with
    | .error e => .error (.validation e)
    | .ok _ =>
      match makeRequestResult resp with
      | .error m => .error (.remote m)
      | .ok result => .ok { text := stringifyResult result }
  | "uploadMultipleFiles" =>
    match UploadMultipleFilesSchema.parse args with
    | .error e => .error (.validation e)
    | .ok _ =>
      match makeRequestResult resp with
      | .error m => .error (.remote m)
      | .ok result => .ok { text := stringifyResult result }
  | "downloadFile" =>
    match DownloadFileSchema.parse args with
    | .error e => .error (.validation e)
    | .ok _ =>
      match makeRequestResult resp with
      | .error m => .error (.remote m)
      | .ok _ => .ok { text := downloadFileMsg }
  | "downloadMultipleFiles" =>
    match DownloadMultipleFilesSchema.parse args with
    | .error e => .error (.validation e)
    | .ok _ =>
      match makeRequestResult resp with
      | .error m => .error (.remote m)
      | .ok _ => .ok { text := downloadMultipleFilesMsg }
  | _ => .ok { text := "Unknown tool: " ++ name, isError := true }

/-- The whole `CallToolRequestSchema` handler: the `catch` block turns
any thrown error into an error-flagged result `API error: <message>`;
the handler itself always returns, so one bad call never terminates the
server loop. -/
def handleToolCall (name : String) (args : Args) (resp : HttpResponse) :
    ToolResult :=
  match runTool name args resp with
  | .ok r => r
  | .error t => { text := "API error: " ++ t.message, isError := true }

/-- Validation composed with request building for one named tool:
`none` for an unregistered name; otherwise either the `ZodError` of the
failed parse (in which case the handler never reaches the gateway and
no request goes out) or the single `RemoteRequest` the gateway
issues. -/
def route (apiKey name : String) (args : Args) :
    Option (Except VErr RemoteRequest) :=
  match name with
  | "startAutomation" =>
    some ((StartAutomationSchema.parse args).map (GumloopAPI.startAutomation apiKey))
  | "retrieveRunDetails" =>
    some ((RetrieveRunDetailsSchema.parse args).map (GumloopAPI.retrieveRunDetails apiKey))
  | "listSavedFlows" =>
    some ((ListSavedFlowsSchema.parse args).map (GumloopAPI.listSavedFlows apiKey))
  | "listWorkbooks" =>
    some ((ListWorkbooksSchema.parse args).map (GumloopAPI.listWorkbooks apiKey))
  | "retrieveInputSchema" =>
    some ((RetrieveInputSchemaSchema.parse args).map (GumloopAPI.retrieveInputSchema apiKey))
  | "uploadFile" =>
    some ((UploadFileSchema.parse args).map (GumloopAPI.uploadFile apiKey))
  | "uploadMultipleFiles" =>
    some ((UploadMultipleFilesSchema.parse args).map (GumloopAPI.uploadMultipleFiles apiKey))
  | "downloadFile" =>
    some ((DownloadFileSchema.parse args).map (GumloopAPI.downloadFile apiKey))
  | "downloadMultipleFiles" =>
    some ((DownloadMultipleFilesSchema.parse args).map (GumloopAPI.downloadMultipleFiles apiKey))
  | _ => none

/-! ## Startup (`GumloopAPI` constructor and `main`) -/

/-- The `GumloopAPI` constructor: reads `GUMLOOP_API_KEY` from the
environment and throws when it is falsy (absent or the empty
string). -/
def gumloopAPIInit (envKey : Option String) : Except String String :=
  match envKey with
  | none => .error "GUMLOOP_API_KEY environment variable is required"
  | some k =>
    if k.isEmpty then
      .error "GUMLOOP_API_KEY environment variable is required"
    else .ok k

/-- Outcome of process startup: serving requests with the captured
credential, or exited with a code and a standard-error message. -/
inductive StartupResult where
  | serving (apiKey : String) : StartupResult
  | exited (code : Nat) (stderr : String) : StartupResult
deriving DecidableEq, Repr

/-- `main` up to the point of accepting calls: `new GumloopAPI()` runs
first; a throw propagates to `main().catch`, which logs
`Fatal error in main():` with the error to standard error and calls
`process.exit(1)`. -/
def mainStartup (envKey : Option String) : StartupResult :=
  match gumloopAPIInit envKey with
  | .error msg => .exited 1 ("Fatal error in main(): Error: " ++ msg)
  | .ok apiKey => .serving apiKey

/-! ## The registry of the nine tools, and well-formed calls -/

/-- The nine registered tools. -/
inductive ToolName where
  | startAutomation : ToolName
  | retrieveRunDetails : ToolName
  | listSavedFlows : ToolName
  | listWorkbooks : ToolName
  | retrieveInputSchema : ToolName
  | uploadFile : ToolName
  | uploadMultipleFiles : ToolName
  | downloadFile : ToolName
  | downloadMultipleFiles : ToolName
deriving DecidableEq, Repr

/-- The string name under which a tool is dispatched. -/
def ToolName.name : ToolName → String
  | .startAutomation => "startAutomation"
  | .retrieveRunDetails => "retrieveRunDetails"
  | .listSavedFlows => "listSavedFlows"
  | .listWorkbooks => "listWorkbooks"
  | .retrieveInputSchema => "retrieveInputSchema"
  | .uploadFile => "uploadFile"
  | .uploadMultipleFiles => "uploadMultipleFiles"
  | .downloadFile => "downloadFile"
  | .downloadMultipleFiles => "downloadMultipleFiles"

/-- The HTTP method of each tool according to the specification's
routing table (§4.2). -/
def ToolName.specMethod : ToolName → Method
  | .startAutomation => .POST
  | .retrieveRunDetails => .GET
  | .listSavedFlows => .GET
  | .listWorkbooks => .GET
  | .retrieveInputSchema => .GET
  | .uploadFile => .POST
  | .uploadMultipleFiles => .POST
  | .downloadFile => .POST
  | .downloadMultipleFiles => .POST

/-- The endpoint path of each tool according to the specification's
routing table (§4.2). -/
def ToolName.specPath : ToolName → String
  | .startAutomation => "/start_pipeline"
  | .retrieveRunDetails => "/get_pl_run"
  | .listSavedFlows => "/list_saved_items"
  | .listWorkbooks => "/list_workbooks"
  | .retrieveInputSchema => "/get_inputs"
  | .uploadFile => "/upload_file"
  | .uploadMultipleFiles => "/upload_files"
  | .downloadFile => "/download_file"
  | .downloadMultipleFiles => "/download_files"

/-- Whether the tool's schema carries the either/or `.refine` on
`user_id`/`project_id`. -/
def ToolName.hasEitherOr : ToolName → Bool
  | .startAutomation => false
  | .downloadFile => false
  | _ => true

/-- The registered tool names, as matched by the dispatch `switch`. -/
def registeredNames : List String :=
  ["startAutomation", "retrieveRunDetails", "listSavedFlows",
   "listWorkbooks", "retrieveInputSchema", "uploadFile",
   "uploadMultipleFiles", "downloadFile", "downloadMultipleFiles"]

/-- Whether a call's name hits one of the nine `switch` cases. -/
def isRegistered (name : String) : Bool := registeredNames.contains name

/-- The key is present and holds a string. -/
def isStrAt (args : Args) (key : String) : Bool :=
  match getField args key with
  | some (.str _) => true
  | _ => false

/-- The key is absent, or present and holds a string. -/
def isOptStrAt (args : Args) (key : String) : Bool :=
  match getField args key with
  | none => true
  | some (.str _) => true
  | _ => false

/-- The key holds a truthy string (present and non-empty). -/
def isTruthyStrAt (args : Args) (key : String) : Bool :=
  match getField args key with
  | some (.str s) => !s.isEmpty
  | _ => false

/-- The either/or constraint as the `.refine` evaluates it: a truthy
`user_id` or a truthy `project_id`. -/
def eitherOrOk (args : Args) : Bool :=
  isTruthyStrAt args "user_id" || isTruthyStrAt args "project_id"

/-- A well-shaped element of `pipeline_inputs`. -/
def isPipelineInputJson : Json → Bool
  | .obj fields => isStrAt fields "input_name" && isStrAt fields "value"
  | _ => false

/-- The key is absent, or holds an array of well-shaped pipeline
inputs. -/
def isOptPipelineAt (args : Args) (key : String) : Bool :=
  match getField args key with
  | none => true
  | some (.arr js) => js.all isPipelineInputJson
  | _ => false

/-- A well-shaped element of `files`. -/
def isFileEntryJson : Json → Bool
  | .obj fields => isStrAt fields "file_name" && isStrAt fields "file_content"
  | _ => false

/-- The key holds an array of well-shaped file entries. -/
def isFilesAt (args : Args) (key : String) : Bool :=
  match getField args key with
  | some (.arr js) => js.all isFileEntryJson
  | _ => false

/-- The key holds an array of strings. -/
def isStrArrayAt (args : Args) (key : String) : Bool :=
  match getField args key with
  | some (.arr js) => js.all fun j =>
      match j with
      | .str _ => true
      | _ => false
  | _ => false

/-- The declared fields of the tool's schema are present where required
and well-typed where present — everything the schema checks except the
either/or `.refine`. -/
def baseWF : ToolName → Args → Bool
  | .startAutomation, args =>
    isStrAt args "user_id" && isStrAt args "saved_item_id" &&
    isOptStrAt args "project_id" && isOptPipelineAt args "pipeline_inputs"
  | .retrieveRunDetails, args =>
    isStrAt args "run_id" && isOptStrAt args "user_id" &&
    isOptStrAt args "project_id"
  | .listSavedFlows, args =>
    isOptStrAt args "user_id" && isOptStrAt args "project_id"
  | .listWorkbooks, args =>
    isOptStrAt args "user_id" && isOptStrAt args "project_id"
  | .retrieveInputSchema, args =>
    isStrAt args "saved_item_id" && isOptStrAt args "user_id" &&
    isOptStrAt args "project_id"
  | .uploadFile, args =>
    isStrAt args "file_name" && isStrAt args "file_content" &&
    isOptStrAt args "user_id" && isOptStrAt args "project_id"
  | .uploadMultipleFiles, args =>
    isFilesAt args "files" && isOptStrAt args "user_id" &&
    isOptStrAt args "project_id"
  | .downloadFile, args =>
    isStrAt args "file_name" && isStrAt args "run_id" &&
    isStrAt args "saved_item_id" && isOptStrAt args "user_id" &&
    isOptStrAt args "project_id"
  | .downloadMultipleFiles, args =>
    isStrArrayAt args "file_names" && isStrAt args "run_id" &&
    isOptStrAt args "user_id" && isOptStrAt args "project_id" &&
    isOptStrAt args "saved_item_id"

/-- A well-formed call: all required fields present with their declared
types, optional fields well-typed where present, and the tool's
either/or constraint (when it has one) satisfied. -/
def wf (t : ToolName) (args : Args) : Bool :=
  baseWF t args && (!t.hasEitherOr || eitherOrOk args)

/-- Specification-side description of a query entry: an optional field
contributes its key mapped to its string value exactly when the value
is present. -/
def presentEntry (key : String) : Option String → List (String × String)
  | some s => [(key, s)]
  | none => []

/-! ## Helper lemmas about the field parsers -/

theorem reqString_ok_of_isStrAt (args : Args) (k : String)
    (h : isStrAt args k = true) : ∃ s, reqString args k = .ok s := by
  unfold isStrAt at h
  cases hg : getField args k with
  | none => rw [hg] at h; simp at h
  | some j =>
    rw [hg] at h
    cases j <;> simp at h
    case str s => exact ⟨s, by simp [reqString, hg]⟩

theorem optString_ok_of_isOptStrAt (args : Args) (k : String)
    (h : isOptStrAt args k = true) : ∃ o, optString args k = .ok o := by
  unfold isOptStrAt at h
  cases hg : getField args k with
  | none => exact ⟨none, by simp [optString, hg]⟩
  | some j =>
    rw [hg] at h
    cases j <;> simp at h
    case str s => exact ⟨some s, by simp [optString, hg]⟩

theorem optString_truthy (args : Args) (k : String) (o : Option String)
    (h : optString args k = .ok o) : truthy o = isTruthyStrAt args k := by
  unfold optString at h
  unfold isTruthyStrAt
  cases hg : getField args k with
  | none => rw [hg] at h; cases h; rfl
  | some j =>
    rw [hg] at h
    cases j <;> simp at h
    case str s => cases h; rfl

theorem reqString_error_of_absent (args : Args) (k : String)
    (h : getField args k = none) :
    reqString args k = .error ⟨"Required: " ++ k⟩ := by
  simp [reqString, h]

theorem parsePipelineInput_ok (j : Json) (h : isPipelineInputJson j = true) :
    ∃ p, parsePipelineInput j = .ok p := by
  unfold isPipelineInputJson at h
  cases j <;> simp at h
  case obj fields =>
    obtain ⟨s, hs⟩ := reqString_ok_of_isStrAt fields "input_name" h.1
    obtain ⟨v, hv⟩ := reqString_ok_of_isStrAt fields "value" h.2
    exact ⟨⟨s, v⟩, by simp [parsePipelineInput, hs, hv]⟩

theorem parsePipelineInputList_ok (js : List Json)
    (h : ∀ j ∈ js, isPipelineInputJson j = true) :
    ∃ ps, parsePipelineInputList js = .ok ps := by
  induction js with
  | nil => exact ⟨[], rfl⟩
  | cons j rest ih =>
    obtain ⟨p, hp⟩ := parsePipelineInput_ok j (h j (List.mem_cons_self j rest))
    obtain ⟨ps, hps⟩ := ih fun x hx => h x (List.mem_cons_of_mem j hx)
    exact ⟨p :: ps, by simp [parsePipelineInputList, hp, hps]⟩

theorem optPipelineInputs_ok_of (args : Args) (k : String)
    (h : isOptPipelineAt args k = true) :
    ∃ o, optPipelineInputs args k = .ok o := by
  unfold isOptPipelineAt at h
  cases hg : getField args k with
  | none => exact ⟨none, by simp [optPipelineInputs, hg]⟩
  | some j =>
    rw [hg] at h
    cases j <;> simp at h
    case arr js =>
      obtain ⟨ps, hps⟩ := parsePipelineInputList_ok js h
      exact ⟨some ps, by simp [optPipelineInputs, hg, hps]⟩

theorem parseFileEntry_ok (j : Json) (h : isFileEntryJson j = true) :
    ∃ f, parseFileEntry j = .ok f := by
  unfold isFileEntryJson at h
  cases j <;> simp at h
  case obj fields =>
    obtain ⟨n, hn⟩ := reqString_ok_of_isStrAt fields "file_name" h.1
    obtain ⟨c, hc⟩ := reqString_ok_of_isStrAt fields "file_content" h.2
    exact ⟨⟨n, c⟩, by simp [parseFileEntry, hn, hc]⟩

theorem parseFileEntryList_ok (js : List Json)
    (h : ∀ j ∈ js, isFileEntryJson j = true) :
    ∃ fs, parseFileEntryList js = .ok fs := by
  induction js with
  | nil => exact ⟨[], rfl⟩
  | cons j rest ih =>
    obtain ⟨f, hf⟩ := parseFileEntry_ok j (h j (List.mem_cons_self j rest))
    obtain ⟨fs, hfs⟩ := ih fun x hx => h x (List.mem_cons_of_mem j hx)
    exact ⟨f :: fs, by simp [parseFileEntryList, hf, hfs]⟩

theorem reqFiles_ok_of (args : Args) (k : String)
    (h : isFilesAt args k = true) : ∃ fs, reqFiles args k = .ok fs := by
  unfold isFilesAt at h
  cases hg : getField args k with
  | none => rw [hg] at h; simp at h
  | some j =>
    rw [hg] at h
    cases j <;> simp at h
    case arr js =>
      obtain ⟨fs, hfs⟩ := parseFileEntryList_ok js h
      exact ⟨fs, by simp [reqFiles, hg, hfs]⟩

theorem parseStringList_ok (js : List Json)
    (h : ∀ j ∈ js, (match j with | Json.str _ => true | _ => false) = true) :
    ∃ ss, parseStringList js = .ok ss := by
  induction js with
  | nil => exact ⟨[], rfl⟩
  | cons j rest ih =>
    obtain ⟨ss, hss⟩ := ih fun x hx => h x (List.mem_cons_of_mem j hx)
    have hj := h j (List.mem_cons_self j rest)
    cases j <;> simp at hj
    case str s => exact ⟨s :: ss, by simp [parseStringList, hss]⟩

theorem reqStringArray_ok_of (args : Args) (k : String)
    (h : isStrArrayAt args k = true) :
    ∃ ss, reqStringArray args k = .ok ss := by
  unfold isStrArrayAt at h
  cases hg : getField args k with
  | none => rw [hg] at h; simp at h
  | some j =>
    rw [hg] at h
    cases j <;> simp at h
    case arr js =>
      obtain ⟨ss, hss⟩ := parseStringList_ok js h
      exact ⟨ss, by simp [reqStringArray, hg, hss]⟩

theorem isTruthyStrAt_absent (args : Args) (k : String)
    (h : getField args k = none) : isTruthyStrAt args k = false := by
  simp [isTruthyStrAt, h]

theorem makeRequest_method_path (apiKey endpoint : String) (m : Method)
    (d : Option (List (String × Json))) :
    (makeRequest apiKey endpoint m d).method = m ∧
    (makeRequest apiKey endpoint m d).path = endpoint := by
  cases m <;> cases d <;> simp [makeRequest]

/-! ## Per-schema parse lemmas -/

theorem startAutomation_parse_ok (args : Args)
    (hb : baseWF .startAutomation args = true) :
    ∃ v, StartAutomationSchema.parse args = .ok v := by
  simp only [baseWF, Bool.and_eq_true] at hb
  obtain ⟨⟨⟨h1, h2⟩, h3⟩, h4⟩ := hb
  obtain ⟨u, hu⟩ := reqString_ok_of_isStrAt args "user_id" h1
  obtain ⟨s, hs⟩ := reqString_ok_of_isStrAt args "saved_item_id" h2
  obtain ⟨p, hp⟩ := optString_ok_of_isOptStrAt args "project_id" h3
  obtain ⟨pi, hpi⟩ := optPipelineInputs_ok_of args "pipeline_inputs" h4
  exact ⟨⟨u, s, p, pi⟩, by simp [StartAutomationSchema.parse, hu, hs, hp, hpi]⟩

theorem retrieveRunDetails_parse_ok (args : Args)
    (hb : baseWF .retrieveRunDetails args = true)
    (heo : eitherOrOk args = true) :
    ∃ v, RetrieveRunDetailsSchema.parse args = .ok v := by
  simp only [baseWF, Bool.and_eq_true] at hb
  obtain ⟨⟨h1, h2⟩, h3⟩ := hb
  obtain ⟨r, hr⟩ := reqString_ok_of_isStrAt args "run_id" h1
  obtain ⟨uo, hu⟩ := optString_ok_of_isOptStrAt args "user_id" h2
  obtain ⟨po, hp⟩ := optString_ok_of_isOptStrAt args "project_id" h3
  have hu' := optString_truthy args "user_id" uo hu
  have hp' := optString_truthy args "project_id" po hp
  simp only [eitherOrOk] at heo
  exact ⟨⟨r, uo, po⟩,
    by simp [RetrieveRunDetailsSchema.parse, hr, hu, hp, hu', hp', heo]⟩

theorem listSavedFlows_parse_ok (args : Args)
    (hb : baseWF .listSavedFlows args = true)
    (heo : eitherOrOk args = true) :
    ∃ v, ListSavedFlowsSchema.parse args = .ok v := by
  simp only [baseWF, Bool.and_eq_true] at hb
  obtain ⟨h1, h2⟩ := hb
  obtain ⟨uo, hu⟩ := optString_ok_of_isOptStrAt args "user_id" h1
  obtain ⟨po, hp⟩ := optString_ok_of_isOptStrAt args "project_id" h2
  have hu' := optString_truthy args "user_id" uo hu
  have hp' := optString_truthy args "project_id" po hp
  simp only [eitherOrOk] at heo
  exact ⟨⟨uo, po⟩, by simp [ListSavedFlowsSchema.parse, hu, hp, hu', hp', heo]⟩

theorem listWorkbooks_parse_ok (args : Args)
    (hb : baseWF .listWorkbooks args = true)
    (heo : eitherOrOk args = true) :
    ∃ v, ListWorkbooksSchema.parse args = .ok v := by
  simp only [baseWF, Bool.and_eq_true] at hb
  obtain ⟨h1, h2⟩ := hb
  obtain ⟨uo, hu⟩ := optString_ok_of_isOptStrAt args "user_id" h1
  obtain ⟨po, hp⟩ := optString_ok_of_isOptStrAt args "project_id" h2
  have hu' := optString_truthy args "user_id" uo hu
  have hp' := optString_truthy args "project_id" po hp
  simp only [eitherOrOk] at heo
  exact ⟨⟨uo, po⟩, by simp [ListWorkbooksSchema.parse, hu, hp, hu', hp', heo]⟩

theorem retrieveInputSchema_parse_ok (args : Args)
    (hb : baseWF .retrieveInputSchema args = true)
    (heo : eitherOrOk args = true) :
    ∃ v, RetrieveInputSchemaSchema.parse args = .ok v := by
  simp only [baseWF, Bool.and_eq_true] at hb
  obtain ⟨⟨h1, h2⟩, h3⟩ := hb
  obtain ⟨s, hs⟩ := reqString_ok_of_isStrAt args "saved_item_id" h1
  obtain ⟨uo, hu⟩ := optString_ok_of_isOptStrAt args "user_id" h2
  obtain ⟨po, hp⟩ := optString_ok_of_isOptStrAt args "project_id" h3
  have hu' := optString_truthy args "user_id" uo hu
  have hp' := optString_truthy args "project_id" po hp
  simp only [eitherOrOk] at heo
  exact ⟨⟨s, uo, po⟩,
    by simp [RetrieveInputSchemaSchema.parse, hs, hu, hp, hu', hp', heo]⟩

theorem uploadFile_parse_ok (args : Args)
    (hb : baseWF .uploadFile args = true)
    (heo : eitherOrOk args = true) :
    ∃ v, UploadFileSchema.parse args = .ok v := by
  simp only [baseWF, Bool.and_eq_true] at hb
  obtain ⟨⟨⟨h1, h2⟩, h3⟩, h4⟩ := hb
  obtain ⟨n, hn⟩ := reqString_ok_of_isStrAt args "file_name" h1
  obtain ⟨c, hc⟩ := reqString_ok_of_isStrAt args "file_content" h2
  obtain ⟨uo, hu⟩ := optString_ok_of_isOptStrAt args "user_id" h3
  obtain ⟨po, hp⟩ := optString_ok_of_isOptStrAt args "project_id" h4
  have hu' := optString_truthy args "user_id" uo hu
  have hp' := optString_truthy args "project_id" po hp
  simp only [eitherOrOk] at heo
  exact ⟨⟨n, c, uo, po⟩,
    by simp [UploadFileSchema.parse, hn, hc, hu, hp, hu', hp', heo]⟩

theorem uploadMultipleFiles_parse_ok (args : Args)
    (hb : baseWF .uploadMultipleFiles args = true)
    (heo : eitherOrOk args = true) :
    ∃ v, UploadMultipleFilesSchema.parse args = .ok v := by
  simp only [baseWF, Bool.and_eq_true] at hb
  obtain ⟨⟨h1, h2⟩, h3⟩ := hb
  obtain ⟨fs, hf⟩ := reqFiles_ok_of args "files" h1
  obtain ⟨uo, hu⟩ := optString_ok_of_isOptStrAt args "user_id" h2
  obtain ⟨po, hp⟩ := optString_ok_of_isOptStrAt args "project_id" h3
  have hu' := optString_truthy args "user_id" uo hu
  have hp' := optString_truthy args "project_id" po hp
  simp only [eitherOrOk] at heo
  exact ⟨⟨fs, uo, po⟩,
    by simp [UploadMultipleFilesSchema.parse, hf, hu, hp, hu', hp', heo]⟩

theorem downloadFile_parse_ok (args : Args)
    (hb : baseWF .downloadFile args = true) :
    ∃ v, DownloadFileSchema.parse args = .ok v := by
  simp only [baseWF, Bool.and_eq_true] at hb
  obtain ⟨⟨⟨⟨h1, h2⟩, h3⟩, h4⟩, h5⟩ := hb
  obtain ⟨n, hn⟩ := reqString_ok_of_isStrAt args "file_name" h1
  obtain ⟨r, hr⟩ := reqString_ok_of_isStrAt args "run_id" h2
  obtain ⟨s, hs⟩ := reqString_ok_of_isStrAt args "saved_item_id" h3
  obtain ⟨uo, hu⟩ := optString_ok_of_isOptStrAt args "user_id" h4
  obtain ⟨po, hp⟩ := optString_ok_of_isOptStrAt args "project_id" h5
  exact ⟨⟨n, r, s, uo, po⟩,
    by simp [DownloadFileSchema.parse, hn, hr, hs, hu, hp]⟩

theorem downloadMultipleFiles_parse_ok (args : Args)
    (hb : baseWF .downloadMultipleFiles args = true)
    (heo : eitherOrOk args = true) :
    ∃ v, DownloadMultipleFilesSchema.parse args = .ok v := by
  simp only [baseWF, Bool.and_eq_true] at hb
  obtain ⟨⟨⟨⟨h1, h2⟩, h3⟩, h4⟩, h5⟩ := hb
  obtain ⟨ns, hns⟩ := reqStringArray_ok_of args "file_names" h1
  obtain ⟨r, hr⟩ := reqString_ok_of_isStrAt args "run_id" h2
  obtain ⟨uo, hu⟩ := optString_ok_of_isOptStrAt args "user_id" h3
  obtain ⟨po, hp⟩ := optString_ok_of_isOptStrAt args "project_id" h4
  obtain ⟨so, hso⟩ := optString_ok_of_isOptStrAt args "saved_item_id" h5
  have hu' := optString_truthy args "user_id" uo hu
  have hp' := optString_truthy args "project_id" po hp
  simp only [eitherOrOk] at heo
  exact ⟨⟨ns, r, uo, po, so⟩,
    by simp [DownloadMultipleFilesSchema.parse, hns, hr, hu, hp, hso, hu', hp', heo]⟩

/-! ## Per-schema lemmas: the either/or refinement failing -/

theorem reqString_not_error (args : Args) (k : String)
    (h : isStrAt args k = true) (e : VErr)
    (he : reqString args k = .error e) : False := by
  obtain ⟨s, hs⟩ := reqString_ok_of_isStrAt args k h
  rw [hs] at he
  exact Except.noConfusion he

theorem optString_not_error (args : Args) (k : String)
    (h : isOptStrAt args k = true) (e : VErr)
    (he : optString args k = .error e) : False := by
  obtain ⟨o, ho⟩ := optString_ok_of_isOptStrAt args k h
  rw [ho] at he
  exact Except.noConfusion he

theorem reqFiles_not_error (args : Args) (k : String)
    (h : isFilesAt args k = true) (e : VErr)
    (he : reqFiles args k = .error e) : False := by
  obtain ⟨fs, hf⟩ := reqFiles_ok_of args k h
  rw [hf] at he
  exact Except.noConfusion he

theorem reqStringArray_not_error (args : Args) (k : String)
    (h : isStrArrayAt args k = true) (e : VErr)
    (he : reqStringArray args k = .error e) : False := by
  obtain ⟨ss, hs⟩ := reqStringArray_ok_of args k h
  rw [hs] at he
  exact Except.noConfusion he

theorem retrieveRunDetails_parse_fail (args : Args)
    (h : eitherOrOk args = false) :
    ∃ e, RetrieveRunDetailsSchema.parse args = .error e ∧
      (baseWF .retrieveRunDetails args = true → e = ⟨eitherOrMsg⟩) := by
  simp only [eitherOrOk] at h
  cases hr : reqString args "run_id" with
  | error e =>
    refine ⟨e, by simp [RetrieveRunDetailsSchema.parse, hr], fun hb => ?_⟩
    simp only [baseWF, Bool.and_eq_true] at hb
    exact (reqString_not_error args "run_id" hb.1.1 e hr).elim
  | ok r =>
    cases hu : optString args "user_id" with
    | error e =>
      refine ⟨e, by simp [RetrieveRunDetailsSchema.parse, hr, hu], fun hb => ?_⟩
      simp only [baseWF, Bool.and_eq_true] at hb
      exact (optString_not_error args "user_id" hb.1.2 e hu).elim
    | ok uo =>
      cases hp : optString args "project_id" with
      | error e =>
        refine ⟨e, by simp [RetrieveRunDetailsSchema.parse, hr, hu, hp],
          fun hb => ?_⟩
        simp only [baseWF, Bool.and_eq_true] at hb
        exact (optString_not_error args "project_id" hb.2 e hp).elim
      | ok po =>
        have hu' := optString_truthy args "user_id" uo hu
        have hp' := optString_truthy args "project_id" po hp
        exact ⟨⟨eitherOrMsg⟩,
          by simp [RetrieveRunDetailsSchema.parse, hr, hu, hp, hu', hp', h],
          fun _ => rfl⟩

theorem listSavedFlows_parse_fail (args : Args)
    (h : eitherOrOk args = false) :
    ∃ e, ListSavedFlowsSchema.parse args = .error e ∧
      (baseWF .listSavedFlows args = true → e = ⟨eitherOrMsg⟩) := by
  simp only [eitherOrOk] at h
  cases hu : optString args "user_id" with
  | error e =>
    refine ⟨e, by simp [ListSavedFlowsSchema.parse, hu], fun hb => ?_⟩
    simp only [baseWF, Bool.and_eq_true] at hb
    exact (optString_not_error args "user_id" hb.1 e hu).elim
  | ok uo =>
    cases hp : optString args "project_id" with
    | error e =>
      refine ⟨e, by simp [ListSavedFlowsSchema.parse, hu, hp], fun hb => ?_⟩
      simp only [baseWF, Bool.and_eq_true] at hb
      exact (optString_not_error args "project_id" hb.2 e hp).elim
    | ok po =>
      have hu' := optString_truthy args "user_id" uo hu
      have hp' := optString_truthy args "project_id" po hp
      exact ⟨⟨eitherOrMsg⟩,
        by simp [ListSavedFlowsSchema.parse, hu, hp, hu', hp', h],
        fun _ => rfl⟩

theorem listWorkbooks_parse_fail (args : Args)
    (h : eitherOrOk args = false) :
    ∃ e, ListWorkbooksSchema.parse args = .error e ∧
      (baseWF .listWorkbooks args = true → e = ⟨eitherOrMsg⟩) := by
  simp only [eitherOrOk] at h
  cases hu : optString args "user_id" with
  | error e =>
    refine ⟨e, by simp [ListWorkbooksSchema.parse, hu], fun hb => ?_⟩
    simp only [baseWF, Bool.and_eq_true] at hb
    exact (optString_not_error args "user_id" hb.1 e hu).elim
  | ok uo =>
    cases hp : optString args "project_id" with
    | error e =>
      refine ⟨e, by simp [ListWorkbooksSchema.parse, hu, hp], fun hb => ?_⟩
      simp only [baseWF, Bool.and_eq_true] at hb
      exact (optString_not_error args "project_id" hb.2 e hp).elim
    | ok po =>
      have hu' := optString_truthy args "user_id" uo hu
      have hp' := optString_truthy args "project_id" po hp
      exact ⟨⟨eitherOrMsg⟩,
        by simp [ListWorkbooksSchema.parse, hu, hp, hu', hp', h],
        fun _ => rfl⟩

theorem retrieveInputSchema_parse_fail (args : Args)
    (h : eitherOrOk args = false) :
    ∃ e, RetrieveInputSchemaSchema.parse args = .error e ∧
      (baseWF .retrieveInputSchema args = true → e = ⟨eitherOrMsg⟩) := by
  simp only [eitherOrOk] at h
  cases hs : reqString args "saved_item_id" with
  | error e =>
    refine ⟨e, by simp [RetrieveInputSchemaSchema.parse, hs], fun hb => ?_⟩
    simp only [baseWF, Bool.and_eq_true] at hb
    exact (reqString_not_error args "saved_item_id" hb.1.1 e hs).elim
  | ok s =>
    cases hu : optString args "user_id" with
    | error e =>
      refine ⟨e, by simp [RetrieveInputSchemaSchema.parse, hs, hu], fun hb => ?_⟩
      simp only [baseWF, Bool.and_eq_true] at hb
      exact (optString_not_error args "user_id" hb.1.2 e hu).elim
    | ok uo =>
      cases hp : optString args "project_id" with
      | error e =>
        refine ⟨e, by simp [RetrieveInputSchemaSchema.parse, hs, hu, hp],
          fun hb => ?_⟩
        simp only [baseWF, Bool.and_eq_true] at hb
        exact (optString_not_error args "project_id" hb.2 e hp).elim
      | ok po =>
        have hu' := optString_truthy args "user_id" uo hu
        have hp' := optString_truthy args "project_id" po hp
        exact ⟨⟨eitherOrMsg⟩,
          by simp [RetrieveInputSchemaSchema.parse, hs, hu, hp, hu', hp', h],
          fun _ => rfl⟩

theorem uploadFile_parse_fail (args : Args)
    (h : eitherOrOk args = false) :
    ∃ e, UploadFileSchema.parse args = .error e ∧
      (baseWF .uploadFile args = true → e = ⟨eitherOrMsg⟩) := by
  simp only [eitherOrOk] at h
  cases hn : reqString args "file_name" with
  | error e =>
    refine ⟨e, by simp [UploadFileSchema.parse, hn], fun hb => ?_⟩
    simp only [baseWF, Bool.and_eq_true] at hb
    exact (reqString_not_error args "file_name" hb.1.1.1 e hn).elim
  | ok n =>
    cases hc : reqString args "file_content" with
    | error e =>
      refine ⟨e, by simp [UploadFileSchema.parse, hn, hc], fun hb => ?_⟩
      simp only [baseWF, Bool.and_eq_true] at hb
      exact (reqString_not_error args "file_content" hb.1.1.2 e hc).elim
    | ok c =>
      cases hu : optString args "user_id" with
      | error e =>
        refine ⟨e, by simp [UploadFileSchema.parse, hn, hc, hu], fun hb => ?_⟩
        simp only [baseWF, Bool.and_eq_true] at hb
        exact (optString_not_error args "user_id" hb.1.2 e hu).elim
      | ok uo =>
        cases hp : optString args "project_id" with
        | error e =>
          refine ⟨e, by simp [UploadFileSchema.parse, hn, hc, hu, hp],
            fun hb => ?_⟩
          simp only [baseWF, Bool.and_eq_true] at hb
          exact (optString_not_error args "project_id" hb.2 e hp).elim
        | ok po =>
          have hu' := optString_truthy args "user_id" uo hu
          have hp' := optString_truthy args "project_id" po hp
          exact ⟨⟨eitherOrMsg⟩,
            by simp [UploadFileSchema.parse, hn, hc, hu, hp, hu', hp', h],
            fun _ => rfl⟩

theorem uploadMultipleFiles_parse_fail (args : Args)
    (h : eitherOrOk args = false) :
    ∃ e, UploadMultipleFilesSchema.parse args = .error e ∧
      (baseWF .uploadMultipleFiles args = true → e = ⟨eitherOrMsg⟩) := by
  simp only [eitherOrOk] at h
  cases hf : reqFiles args "files" with
  | error e =>
    refine ⟨e, by simp [UploadMultipleFilesSchema.parse, hf], fun hb => ?_⟩
    simp only [baseWF, Bool.and_eq_true] at hb
    exact (reqFiles_not_error args "files" hb.1.1 e hf).elim
  | ok fs =>
    cases hu : optString args "user_id" with
    | error e =>
      refine ⟨e, by simp [UploadMultipleFilesSchema.parse, hf, hu], fun hb => ?_⟩
      simp only [baseWF, Bool.and_eq_true] at hb
      exact (optString_not_error args "user_id" hb.1.2 e hu).elim
    | ok uo =>
      cases hp : optString args "project_id" with
      | error e =>
        refine ⟨e, by simp [UploadMultipleFilesSchema.parse, hf, hu, hp],
          fun hb => ?_⟩
        simp only [baseWF, Bool.and_eq_true] at hb
        exact (optString_not_error args "project_id" hb.2 e hp).elim
      | ok po =>
        have hu' := optString_truthy args "user_id" uo hu
        have hp' := optString_truthy args "project_id" po hp
        exact ⟨⟨eitherOrMsg⟩,
          by simp [UploadMultipleFilesSchema.parse, hf, hu, hp, hu', hp', h],
          fun _ => rfl⟩

theorem downloadMultipleFiles_parse_fail (args : Args)
    (h : eitherOrOk args = false) :
    ∃ e, DownloadMultipleFilesSchema.parse args = .error e ∧
      (baseWF .downloadMultipleFiles args = true → e = ⟨eitherOrMsg⟩) := by
  simp only [eitherOrOk] at h
  cases hns : reqStringArray args "file_names" with
  | error e =>
    refine ⟨e, by simp [DownloadMultipleFilesSchema.parse, hns], fun hb => ?_⟩
    simp only [baseWF, Bool.and_eq_true] at hb
    exact (reqStringArray_not_error args "file_names" hb.1.1.1.1 e hns).elim
  | ok ns =>
    cases hr : reqString args "run_id" with
    | error e =>
      refine ⟨e, by simp [DownloadMultipleFilesSchema.parse, hns, hr],
        fun hb => ?_⟩
      simp only [baseWF, Bool.and_eq_true] at hb
      exact (reqString_not_error args "run_id" hb.1.1.1.2 e hr).elim
    | ok r =>
      cases hu : optString args "user_id" with
      | error e =>
        refine ⟨e, by simp [DownloadMultipleFilesSchema.parse, hns, hr, hu],
          fun hb => ?_⟩
        simp only [baseWF, Bool.and_eq_true] at hb
        exact (optString_not_error args "user_id" hb.1.1.2 e hu).elim
      | ok uo =>
        cases hp : optString args "project_id" with
        | error e =>
          refine ⟨e,
            by simp [DownloadMultipleFilesSchema.parse, hns, hr, hu, hp],
            fun hb => ?_⟩
          simp only [baseWF, Bool.and_eq_true] at hb
          exact (optString_not_error args "project_id" hb.1.2 e hp).elim
        | ok po =>
          cases hso : optString args "saved_item_id" with
          | error e =>
            refine ⟨e,
              by simp [DownloadMultipleFilesSchema.parse, hns, hr, hu, hp, hso],
              fun hb => ?_⟩
            simp only [baseWF, Bool.and_eq_true] at hb
            exact (optString_not_error args "saved_item_id" hb.2 e hso).elim
          | ok so =>
            have hu' := optString_truthy args "user_id" uo hu
            have hp' := optString_truthy args "project_id" po hp
            exact ⟨⟨eitherOrMsg⟩,
              by simp [DownloadMultipleFilesSchema.parse, hns, hr, hu, hp,
                hso, hu', hp', h],
              fun _ => rfl⟩

/-! ## Routing lemmas -/

theorem route_eitherOr_fail (t : ToolName) (ht : t.hasEitherOr = true)
    (apiKey : String) (args : Args) (h : eitherOrOk args = false) :
    ∃ e, route apiKey t.name args = some (.error e) ∧
      (baseWF t args = true → e = ⟨eitherOrMsg⟩) := by
  cases t
  case startAutomation => simp [ToolName.hasEitherOr] at ht
  case downloadFile => simp [ToolName.hasEitherOr] at ht
  case retrieveRunDetails =>
    obtain ⟨e, he, hmsg⟩ := retrieveRunDetails_parse_fail args h
    exact ⟨e, by simp [route, ToolName.name, he, Except.map], hmsg⟩
  case listSavedFlows =>
    obtain ⟨e, he, hmsg⟩ := listSavedFlows_parse_fail args h
    exact ⟨e, by simp [route, ToolName.name, he, Except.map], hmsg⟩
  case listWorkbooks =>
    obtain ⟨e, he, hmsg⟩ := listWorkbooks_parse_fail args h
    exact ⟨e, by simp [route, ToolName.name, he, Except.map], hmsg⟩
  case retrieveInputSchema =>
    obtain ⟨e, he, hmsg⟩ := retrieveInputSchema_parse_fail args h
    exact ⟨e, by simp [route, ToolName.name, he, Except.map], hmsg⟩
  case uploadFile =>
    obtain ⟨e, he, hmsg⟩ := uploadFile_parse_fail args h
    exact ⟨e, by simp [route, ToolName.name, he, Except.map], hmsg⟩
  case uploadMultipleFiles =>
    obtain ⟨e, he, hmsg⟩ := uploadMultipleFiles_parse_fail args h
    exact ⟨e, by simp [route, ToolName.name, he, Except.map], hmsg⟩
  case downloadMultipleFiles =>
    obtain ⟨e, he, hmsg⟩ := downloadMultipleFiles_parse_fail args h
    exact ⟨e, by simp [route, ToolName.name, he, Except.map], hmsg⟩

/-! ## The claims -/

/-- Claim C1: for every one of the nine tools, a call whose arguments
contain all required fields (with their declared types) and satisfy any
either/or constraint passes validation — so no `ValidationError` is
raised — and is dispatched to exactly the (HTTP method, path) pair of
the specification's routing table: startAutomation → POST
/start_pipeline, retrieveRunDetails → GET /get_pl_run, listSavedFlows →
GET /list_saved_items, listWorkbooks → GET /list_workbooks,
retrieveInputSchema → GET /get_inputs, uploadFile → POST /upload_file,
uploadMultipleFiles → POST /upload_files, downloadFile → POST
/download_file, downloadMultipleFiles → POST /download_files. -/
theorem claim_C1 (t : ToolName) (apiKey : String) (args : Args)
    (h : wf t args = true) :
    ∃ r, route apiKey t.name args = some (.ok r) ∧
      r.method = t.specMethod ∧ r.path = t.specPath := by
  simp only [wf, Bool.and_eq_true] at h
  obtain ⟨hb, heo⟩ := h
  cases t
  case startAutomation =>
    obtain ⟨v, hv⟩ := startAutomation_parse_ok args hb
    exact ⟨GumloopAPI.startAutomation apiKey v,
      by simp [route, ToolName.name, hv, Except.map],
      (makeRequest_method_path apiKey "/start_pipeline" .POST (some v.toData)).1,
      (makeRequest_method_path apiKey "/start_pipeline" .POST (some v.toData)).2⟩
  case retrieveRunDetails =>
    simp only [ToolName.hasEitherOr, Bool.not_true, Bool.false_or] at heo
    obtain ⟨v, hv⟩ := retrieveRunDetails_parse_ok args hb heo
    exact ⟨GumloopAPI.retrieveRunDetails apiKey v,
      by simp [route, ToolName.name, hv, Except.map],
      (makeRequest_method_path apiKey "/get_pl_run" .GET (some v.toData)).1,
      (makeRequest_method_path apiKey "/get_pl_run" .GET (some v.toData)).2⟩
  case listSavedFlows =>
    simp only [ToolName.hasEitherOr, Bool.not_true, Bool.false_or] at heo
    obtain ⟨v, hv⟩ := listSavedFlows_parse_ok args hb heo
    exact ⟨GumloopAPI.listSavedFlows apiKey v,
      by simp [route, ToolName.name, hv, Except.map],
      (makeRequest_method_path apiKey "/list_saved_items" .GET (some v.toData)).1,
      (makeRequest_method_path apiKey "/list_saved_items" .GET (some v.toData)).2⟩
  case listWorkbooks =>
    simp only [ToolName.hasEitherOr, Bool.not_true, Bool.false_or] at heo
    obtain ⟨v, hv⟩ := listWorkbooks_parse_ok args hb heo
    exact ⟨GumloopAPI.listWorkbooks apiKey v,
      by simp [route, ToolName.name, hv, Except.map],
      (makeRequest_method_path apiKey "/list_workbooks" .GET (some v.toData)).1,
      (makeRequest_method_path apiKey "/list_workbooks" .GET (some v.toData)).2⟩
  case retrieveInputSchema =>
    simp only [ToolName.hasEitherOr, Bool.not_true, Bool.false_or] at heo
    obtain ⟨v, hv⟩ := retrieveInputSchema_parse_ok args hb heo
    exact ⟨GumloopAPI.retrieveInputSchema apiKey v,
      by simp [route, ToolName.name, hv, Except.map],
      (makeRequest_method_path apiKey "/get_inputs" .GET (some v.toData)).1,
      (makeRequest_method_path apiKey "/get_inputs" .GET (some v.toData)).2⟩
  case uploadFile =>
    simp only [ToolName.hasEitherOr, Bool.not_true, Bool.false_or] at heo
    obtain ⟨v, hv⟩ := uploadFile_parse_ok args hb heo
    exact ⟨GumloopAPI.uploadFile apiKey v,
      by simp [route, ToolName.name, hv, Except.map],
      (makeRequest_method_path apiKey "/upload_file" .POST (some v.toData)).1,
      (makeRequest_method_path apiKey "/upload_file" .POST (some v.toData)).2⟩
  case uploadMultipleFiles =>
    simp only [ToolName.hasEitherOr, Bool.not_true, Bool.false_or] at heo
    obtain ⟨v, hv⟩ := uploadMultipleFiles_parse_ok args hb heo
    exact ⟨GumloopAPI.uploadMultipleFiles apiKey v,
      by simp [route, ToolName.name, hv, Except.map],
      (makeRequest_method_path apiKey "/upload_files" .POST (some v.toData)).1,
      (makeRequest_method_path apiKey "/upload_files" .POST (some v.toData)).2⟩
  case downloadFile =>
    obtain ⟨v, hv⟩ := downloadFile_parse_ok args hb
    exact ⟨GumloopAPI.downloadFile apiKey v,
      by simp [route, ToolName.name, hv, Except.map],
      (makeRequest_method_path apiKey "/download_file" .POST (some v.toData)).1,
      (makeRequest_method_path apiKey "/download_file" .POST (some v.toData)).2⟩
  case downloadMultipleFiles =>
    simp only [ToolName.hasEitherOr, Bool.not_true, Bool.false_or] at heo
    obtain ⟨v, hv⟩ := downloadMultipleFiles_parse_ok args hb heo
    exact ⟨GumloopAPI.downloadMultipleFiles apiKey v,
      by simp [route, ToolName.name, hv, Except.map],
      (makeRequest_method_path apiKey "/download_files" .POST (some v.toData)).1,
      (makeRequest_method_path apiKey "/download_files" .POST (some v.toData)).2⟩

/-- Concrete witness for claim C1: one well-formed call per tool,
routed to the table's (method, path) pair. -/
theorem claim_C1_witness :
    (wf .startAutomation
        [("user_id", .str "u1"), ("saved_item_id", .str "s1")] = true ∧
      ∃ r, route "key" "startAutomation"
          [("user_id", .str "u1"), ("saved_item_id", .str "s1")] =
          some (.ok r) ∧ r.method = .POST ∧ r.path = "/start_pipeline") ∧
    (wf .retrieveRunDetails
        [("run_id", .str "r1"), ("user_id", .str "u1")] = true ∧
      ∃ r, route "key" "retrieveRunDetails"
          [("run_id", .str "r1"), ("user_id", .str "u1")] =
          some (.ok r) ∧ r.method = .GET ∧ r.path = "/get_pl_run") ∧
    (wf .listSavedFlows [("user_id", .str "u1")] = true ∧
      ∃ r, route "key" "listSavedFlows" [("user_id", .str "u1")] =
          some (.ok r) ∧ r.method = .GET ∧ r.path = "/list_saved_items") ∧
    (wf .listWorkbooks [("project_id", .str "p1")] = true ∧
      ∃ r, route "key" "listWorkbooks" [("project_id", .str "p1")] =
          some (.ok r) ∧ r.method = .GET ∧ r.path = "/list_workbooks") ∧
    (wf .retrieveInputSchema
        [("saved_item_id", .str "s1"), ("project_id", .str "p1")] = true ∧
      ∃ r, route "key" "retrieveInputSchema"
          [("saved_item_id", .str "s1"), ("project_id", .str "p1")] =
          some (.ok r) ∧ r.method = .GET ∧ r.path = "/get_inputs") ∧
    (wf .uploadFile
        [("file_name", .str "f.txt"), ("file_content", .str "QUJD"),
         ("user_id", .str "u1")] = true ∧
      ∃ r, route "key" "uploadFile"
          [("file_name", .str "f.txt"), ("file_content", .str "QUJD"),
           ("user_id", .str "u1")] =
          some (.ok r) ∧ r.method = .POST ∧ r.path = "/upload_file") ∧
    (wf .uploadMultipleFiles
        [("files", .arr [.obj [("file_name", .str "a"),
                               ("file_content", .str "b")]]),
         ("user_id", .str "u1")] = true ∧
      ∃ r, route "key" "uploadMultipleFiles"
          [("files", .arr [.obj [("file_name", .str "a"),
                                 ("file_content", .str "b")]]),
           ("user_id", .str "u1")] =
          some (.ok r) ∧ r.method = .POST ∧ r.path = "/upload_files") ∧
    (wf .downloadFile
        [("file_name", .str "f"), ("run_id", .str "r"),
         ("saved_item_id", .str "s")] = true ∧
      ∃ r, route "key" "downloadFile"
          [("file_name", .str "f"), ("run_id", .str "r"),
           ("saved_item_id", .str "s")] =
          some (.ok r) ∧ r.method = .POST ∧ r.path = "/download_file") ∧
    (wf .downloadMultipleFiles
        [("file_names", .arr [.str "a", .str "b"]), ("run_id", .str "r"),
         ("user_id", .str "u1")] = true ∧
      ∃ r, route "key" "downloadMultipleFiles"
          [("file_names", .arr [.str "a", .str "b"]), ("run_id", .str "r"),
           ("user_id", .str "u1")] =
          some (.ok r) ∧ r.method = .POST ∧ r.path = "/download_files") :=
  ⟨⟨by rfl, claim_C1 .startAutomation "key"
      [("user_id", .str "u1"), ("saved_item_id", .str "s1")] (by rfl)⟩,
   ⟨by rfl, claim_C1 .retrieveRunDetails "key"
      [("run_id", .str "r1"), ("user_id", .str "u1")] (by rfl)⟩,
   ⟨by rfl, claim_C1 .listSavedFlows "key"
      [("user_id", .str "u1")] (by rfl)⟩,
   ⟨by rfl, claim_C1 .listWorkbooks "key"
      [("project_id", .str "p1")] (by rfl)⟩,
   ⟨by rfl, claim_C1 .retrieveInputSchema "key"
      [("saved_item_id", .str "s1"), ("project_id", .str "p1")] (by rfl)⟩,
   ⟨by rfl, claim_C1 .uploadFile "key"
      [("file_name", .str "f.txt"), ("file_content", .str "QUJD"),
       ("user_id", .str "u1")] (by rfl)⟩,
   ⟨by rfl, claim_C1 .uploadMultipleFiles "key"
      [("files", .arr [.obj [("file_name", .str "a"),
                             ("file_content", .str "b")]]),
       ("user_id", .str "u1")] (by rfl)⟩,
   ⟨by rfl, claim_C1 .downloadFile "key"
      [("file_name", .str "f"), ("run_id", .str "r"),
       ("saved_item_id", .str "s")] (by rfl)⟩,
   ⟨by rfl, claim_C1 .downloadMultipleFiles "key"
      [("file_names", .arr [.str "a", .str "b"]), ("run_id", .str "r"),
       ("user_id", .str "u1")] (by rfl)⟩⟩

/-- Claim C2: for every tool with an either/or constraint
(`retrieveRunDetails`, `listSavedFlows`, `listWorkbooks`,
`retrieveInputSchema`, `uploadFile`, `uploadMultipleFiles`,
`downloadMultipleFiles`), a call omitting both `user_id` and
`project_id` fails validation — `route` carries `.error`, so the
request-building arm of the `Except` is never reached and no outbound
HTTP request is issued — and, whenever the remaining fields are
well-shaped, the `ValidationError` carries exactly the refine message
naming the violated constraint. -/
theorem claim_C2 (t : ToolName) (ht : t.hasEitherOr = true)
    (apiKey : String) (args : Args)
    (hu : getField args "user_id" = none)
    (hp : getField args "project_id" = none) :
    ∃ e, route apiKey t.name args = some (.error e) ∧
      (baseWF t args = true → e = ⟨eitherOrMsg⟩) := by
  have h : eitherOrOk args = false := by
    simp [eitherOrOk, isTruthyStrAt_absent args "user_id" hu,
      isTruthyStrAt_absent args "project_id" hp]
  exact route_eitherOr_fail t ht apiKey args h

/-- Concrete witness for claim C2: `listSavedFlows` called with no
arguments at all. -/
theorem claim_C2_witness :
    ToolName.hasEitherOr .listSavedFlows = true ∧
    getField ([] : Args) "user_id" = none ∧
    getField ([] : Args) "project_id" = none ∧
    ∃ e, route "key" "listSavedFlows" ([] : Args) = some (.error e) ∧
      (baseWF .listSavedFlows ([] : Args) = true → e = ⟨eitherOrMsg⟩) :=
  ⟨by rfl, by rfl, by rfl,
   claim_C2 .listSavedFlows (by rfl) "key" [] (by rfl) (by rfl)⟩

theorem startAutomation_parse_absent (args : Args)
    (h : getField args "user_id" = none ∨
         getField args "saved_item_id" = none) :
    ∃ e, StartAutomationSchema.parse args = .error e := by
  cases hu : reqString args "user_id" with
  | error e => exact ⟨e, by simp [StartAutomationSchema.parse, hu]⟩
  | ok u =>
    cases hs : reqString args "saved_item_id" with
    | error e => exact ⟨e, by simp [StartAutomationSchema.parse, hu, hs]⟩
    | ok s =>
      rcases h with h | h
      · rw [reqString_error_of_absent args "user_id" h] at hu
        exact Except.noConfusion hu
      · rw [reqString_error_of_absent args "saved_item_id" h] at hs
        exact Except.noConfusion hs

theorem downloadFile_parse_absent (args : Args)
    (h : getField args "file_name" = none ∨
         getField args "run_id" = none ∨
         getField args "saved_item_id" = none) :
    ∃ e, DownloadFileSchema.parse args = .error e := by
  cases hn : reqString args "file_name" with
  | error e => exact ⟨e, by simp [DownloadFileSchema.parse, hn]⟩
  | ok n =>
    cases hr : reqString args "run_id" with
    | error e => exact ⟨e, by simp [DownloadFileSchema.parse, hn, hr]⟩
    | ok r =>
      cases hs : reqString args "saved_item_id" with
      | error e => exact ⟨e, by simp [DownloadFileSchema.parse, hn, hr, hs]⟩
      | ok s =>
        rcases h with h | h | h
        · rw [reqString_error_of_absent args "file_name" h] at hn
          exact Except.noConfusion hn
        · rw [reqString_error_of_absent args "run_id" h] at hr
          exact Except.noConfusion hr
        · rw [reqString_error_of_absent args "saved_item_id" h] at hs
          exact Except.noConfusion hs

/-- Claim C3: omitting a required field fails validation before any
network activity — `route` carries `.error`, never a `RemoteRequest`:
for `startAutomation`, omitting `user_id` or `saved_item_id`; for
`downloadFile`, omitting any of `file_name`, `run_id`,
`saved_item_id`. -/
theorem claim_C3 (apiKey : String) (args : Args) :
    (getField args "user_id" = none →
      ∃ e, route apiKey "startAutomation" args = some (.error e)) ∧
    (getField args "saved_item_id" = none →
      ∃ e, route apiKey "startAutomation" args = some (.error e)) ∧
    (getField args "file_name" = none →
      ∃ e, route apiKey "downloadFile" args = some (.error e)) ∧
    (getField args "run_id" = none →
      ∃ e, route apiKey "downloadFile" args = some (.error e)) ∧
    (getField args "saved_item_id" = none →
      ∃ e, route apiKey "downloadFile" args = some (.error e)) := by
  refine ⟨fun h => ?_, fun h => ?_, fun h => ?_, fun h => ?_, fun h => ?_⟩
  · obtain ⟨e, he⟩ := startAutomation_parse_absent args (Or.inl h)
    exact ⟨e, by simp [route, he, Except.map]⟩
  · obtain ⟨e, he⟩ := startAutomation_parse_absent args (Or.inr h)
    exact ⟨e, by simp [route, he, Except.map]⟩
  · obtain ⟨e, he⟩ := downloadFile_parse_absent args (Or.inl h)
    exact ⟨e, by simp [route, he, Except.map]⟩
  · obtain ⟨e, he⟩ := downloadFile_parse_absent args (Or.inr (Or.inl h))
    exact ⟨e, by simp [route, he, Except.map]⟩
  · obtain ⟨e, he⟩ := downloadFile_parse_absent args (Or.inr (Or.inr h))
    exact ⟨e, by simp [route, he, Except.map]⟩

/-- Concrete witness for claim C3: `startAutomation` without `user_id`,
and `downloadFile` without `run_id`. -/
theorem claim_C3_witness :
    getField [("saved_item_id", Json.str "s1")] "user_id" = none ∧
    (∃ e, route "key" "startAutomation"
        [("saved_item_id", Json.str "s1")] = some (.error e)) ∧
    getField [("file_name", Json.str "f")] "run_id" = none ∧
    (∃ e, route "key" "downloadFile"
        [("file_name", Json.str "f")] = some (.error e)) :=
  ⟨by rfl,
   (claim_C3 "key" [("saved_item_id", Json.str "s1")]).1 (by rfl),
   by rfl,
   (claim_C3 "key" [("file_name", Json.str "f")]).2.2.2.1 (by rfl)⟩

/-- Claim C10: for every tool with an either/or constraint, supplying
an empty string for `user_id` (with `project_id` absent), or an empty
string for `project_id` (with `user_id` absent), fails the either/or
check even though the field is present with the declared string type:
the `.refine` evaluates JS truthiness, under which `""` counts as
absent.  When the remaining fields are well-shaped the error is exactly
the refine message. -/
theorem claim_C10 (t : ToolName) (ht : t.hasEitherOr = true)
    (apiKey : String) (args : Args)
    (h : (getField args "user_id" = some (.str "") ∧
          getField args "project_id" = none) ∨
         (getField args "user_id" = none ∧
          getField args "project_id" = some (.str ""))) :
    ∃ e, route apiKey t.name args = some (.error e) ∧
      (baseWF t args = true → e = ⟨eitherOrMsg⟩) := by
  have hf : eitherOrOk args = false := by
    rcases h with ⟨h1, h2⟩ | ⟨h1, h2⟩ <;>
      simp [eitherOrOk, isTruthyStrAt, h1, h2] <;> rfl
  exact route_eitherOr_fail t ht apiKey args hf

/-- Concrete witness for claim C10: `listWorkbooks` with
`user_id = ""`, whose remaining fields are trivially well-shaped, so
the error is exactly the either/or refine message. -/
theorem claim_C10_witness :
    ToolName.hasEitherOr .listWorkbooks = true ∧
    getField [("user_id", Json.str "")] "user_id" = some (.str "") ∧
    getField [("user_id", Json.str "")] "project_id" = none ∧
    ∃ e, route "key" "listWorkbooks" [("user_id", Json.str "")] =
        some (.error e) ∧
      (baseWF .listWorkbooks [("user_id", Json.str "")] = true →
        e = ⟨eitherOrMsg⟩) :=
  ⟨by rfl, by rfl, by rfl,
   claim_C10 .listWorkbooks (by rfl) "key" [("user_id", Json.str "")]
     (Or.inl ⟨by rfl, by rfl⟩)⟩

/-- Claim C4: for every GET-shaped call, the query contains exactly the
argument fields whose values are present, each mapped to its string
value — an absent field never contributes a key.  In particular
`listSavedFlows` with only `user_id = "u1"` yields the query
`user_id=u1` and no `project_id` key. -/
theorem claim_C4 (apiKey : String) :
    (∀ v : RetrieveRunDetailsArgs,
      (GumloopAPI.retrieveRunDetails apiKey v).query =
        [("run_id", v.run_id)] ++ presentEntry "user_id" v.user_id ++
        presentEntry "project_id" v.project_id) ∧
    (∀ v : ListSavedFlowsArgs,
      (GumloopAPI.listSavedFlows apiKey v).query =
        presentEntry "user_id" v.user_id ++
        presentEntry "project_id" v.project_id) ∧
    (∀ v : ListWorkbooksArgs,
      (GumloopAPI.listWorkbooks apiKey v).query =
        presentEntry "user_id" v.user_id ++
        presentEntry "project_id" v.project_id) ∧
    (∀ v : RetrieveInputSchemaArgs,
      (GumloopAPI.retrieveInputSchema apiKey v).query =
        [("saved_item_id", v.saved_item_id)] ++
        presentEntry "user_id" v.user_id ++
        presentEntry "project_id" v.project_id) ∧
    (GumloopAPI.listSavedFlows apiKey ⟨some "u1", none⟩).query =
      [("user_id", "u1")] ∧
    (GumloopAPI.listSavedFlows apiKey ⟨some "u1", none⟩).url =
      "https://api.gumloop.com/api/v1/list_saved_items?user_id=u1" := by
  refine ⟨fun v => ?_, fun v => ?_, fun v => ?_, fun v => ?_, ?_, ?_⟩
  · obtain ⟨r, uo, po⟩ := v
    cases uo <;> cases po <;>
      simp [GumloopAPI.retrieveRunDetails, makeRequest,
        RetrieveRunDetailsArgs.toData, queryEntries, optEntry, presentEntry,
        jsString]
  · obtain ⟨uo, po⟩ := v
    cases uo <;> cases po <;>
      simp [GumloopAPI.listSavedFlows, makeRequest,
        ListSavedFlowsArgs.toData, queryEntries, optEntry, presentEntry,
        jsString]
  · obtain ⟨uo, po⟩ := v
    cases uo <;> cases po <;>
      simp [GumloopAPI.listWorkbooks, makeRequest,
        ListWorkbooksArgs.toData, queryEntries, optEntry, presentEntry,
        jsString]
  · obtain ⟨s, uo, po⟩ := v
    cases uo <;> cases po <;>
      simp [GumloopAPI.retrieveInputSchema, makeRequest,
        RetrieveInputSchemaArgs.toData, queryEntries, optEntry, presentEntry,
        jsString]
  · rfl
  · rfl

/-- Claim C5: for every tool call whose remote response has a failure
status, the call fails with the remote error carrying the numeric
status and the status text; the result is error-flagged and completely
independent of the response body (which is quantified over and never
parsed). -/
theorem claim_C5 (t : ToolName) (args : Args) (resp : HttpResponse)
    (hw : wf t args = true) (hok : resp.ok = false) :
    handleToolCall t.name args resp =
      { text := "API error: " ++ ("Gumloop API request failed: " ++
          toString resp.status ++ " - " ++ resp.statusText),
        isError := true } := by
  simp only [wf, Bool.and_eq_true] at hw
  obtain ⟨hb, heo⟩ := hw
  cases t
  case startAutomation =>
    obtain ⟨v, hv⟩ := startAutomation_parse_ok args hb
    simp [handleToolCall, runTool, ToolName.name, hv, makeRequestResult,
      hok, Thrown.message]
  case retrieveRunDetails =>
    simp only [ToolName.hasEitherOr, Bool.not_true, Bool.false_or] at heo
    obtain ⟨v, hv⟩ := retrieveRunDetails_parse_ok args hb heo
    simp [handleToolCall, runTool, ToolName.name, hv, makeRequestResult,
      hok, Thrown.message]
  case listSavedFlows =>
    simp only [ToolName.hasEitherOr, Bool.not_true, Bool.false_or] at heo
    obtain ⟨v, hv⟩ := listSavedFlows_parse_ok args hb heo
    simp [handleToolCall, runTool, ToolName.name, hv, makeRequestResult,
      hok, Thrown.message]
  case listWorkbooks =>
    simp only [ToolName.hasEitherOr, Bool.not_true, Bool.false_or] at heo
    obtain ⟨v, hv⟩ := listWorkbooks_parse_ok args hb heo
    simp [handleToolCall, runTool, ToolName.name, hv, makeRequestResult,
      hok, Thrown.message]
  case retrieveInputSchema =>
    simp only [ToolName.hasEitherOr, Bool.not_true, Bool.false_or] at heo
    obtain ⟨v, hv⟩ := retrieveInputSchema_parse_ok args hb heo
    simp [handleToolCall, runTool, ToolName.name, hv, makeRequestResult,
      hok, Thrown.message]
  case uploadFile =>
    simp only [ToolName.hasEitherOr, Bool.not_true, Bool.false_or] at heo
    obtain ⟨v, hv⟩ := uploadFile_parse_ok args hb heo
    simp [handleToolCall, runTool, ToolName.name, hv, makeRequestResult,
      hok, Thrown.message]
  case uploadMultipleFiles =>
    simp only [ToolName.hasEitherOr, Bool.not_true, Bool.false_or] at heo
    obtain ⟨v, hv⟩ := uploadMultipleFiles_parse_ok args hb heo
    simp [handleToolCall, runTool, ToolName.name, hv, makeRequestResult,
      hok, Thrown.message]
  case downloadFile =>
    obtain ⟨v, hv⟩ := downloadFile_parse_ok args hb
    simp [handleToolCall, runTool, ToolName.name, hv, makeRequestResult,
      hok, Thrown.message]
  case downloadMultipleFiles =>
    simp only [ToolName.hasEitherOr, Bool.not_true, Bool.false_or] at heo
    obtain ⟨v, hv⟩ := downloadMultipleFiles_parse_ok args hb heo
    simp [handleToolCall, runTool, ToolName.name, hv, makeRequestResult,
      hok, Thrown.message]

/-- Concrete witness for claim C5: a valid `listSavedFlows` call whose
remote reply is a 404 carrying a JSON body — the body is ignored and
the error-flagged result carries `404 - Not Found`. -/
theorem claim_C5_witness :
    wf .listSavedFlows [("user_id", Json.str "u1")] = true ∧
    HttpResponse.ok ⟨404, "Not Found", some "application/json",
      .jsonDoc (.str "ignored")⟩ = false ∧
    handleToolCall "listSavedFlows" [("user_id", Json.str "u1")]
      ⟨404, "Not Found", some "application/json", .jsonDoc (.str "ignored")⟩ =
      { text := "API error: Gumloop API request failed: 404 - Not Found",
        isError := true } :=
  ⟨by rfl, by rfl,
   claim_C5 .listSavedFlows [("user_id", Json.str "u1")]
     ⟨404, "Not Found", some "application/json", .jsonDoc (.str "ignored")⟩
     (by rfl) (by rfl)⟩

/-- Claim C6: for every non-download tool call whose remote response
succeeds with a JSON content type carrying document `j`, the tool
result is success-flagged and its text payload is exactly the
re-serialization (`JSON.stringify(·, null, 2)`) of that same document
`j` — the response document survives the decode/encode round-trip
unchanged. -/
theorem claim_C6 (t : ToolName)
    (hnd1 : t ≠ .downloadFile) (hnd2 : t ≠ .downloadMultipleFiles)
    (args : Args) (resp : HttpResponse) (ct : String) (j : Json)
    (hw : wf t args = true) (hok : resp.ok = true)
    (hct : resp.contentType = some ct)
    (hinc : strIncludes ct "application/json" = true)
    (hbody : resp.body = .jsonDoc j) :
    handleToolCall t.name args resp =
      { text := stringify2 j, isError := false } := by
  simp only [wf, Bool.and_eq_true] at hw
  obtain ⟨hb, heo⟩ := hw
  cases t
  case downloadFile => exact absurd rfl hnd1
  case downloadMultipleFiles => exact absurd rfl hnd2
  case startAutomation =>
    obtain ⟨v, hv⟩ := startAutomation_parse_ok args hb
    simp [handleToolCall, runTool, ToolName.name, hv, makeRequestResult,
      hok, hct, hinc, hbody, responseJson, stringifyResult]
  case retrieveRunDetails =>
    simp only [ToolName.hasEitherOr, Bool.not_true, Bool.false_or] at heo
    obtain ⟨v, hv⟩ := retrieveRunDetails_parse_ok args hb heo
    simp [handleToolCall, runTool, ToolName.name, hv, makeRequestResult,
      hok, hct, hinc, hbody, responseJson, stringifyResult]
  case listSavedFlows =>
    simp only [ToolName.hasEitherOr, Bool.not_true, Bool.false_or] at heo
    obtain ⟨v, hv⟩ := listSavedFlows_parse_ok args hb heo
    simp [handleToolCall, runTool, ToolName.name, hv, makeRequestResult,
      hok, hct, hinc, hbody, responseJson, stringifyResult]
  case listWorkbooks =>
    simp only [ToolName.hasEitherOr, Bool.not_true, Bool.false_or] at heo
    obtain ⟨v, hv⟩ := listWorkbooks_parse_ok args hb heo
    simp [handleToolCall, runTool, ToolName.name, hv, makeRequestResult,
      hok, hct, hinc, hbody, responseJson, stringifyResult]
  case retrieveInputSchema =>
    simp only [ToolName.hasEitherOr, Bool.not_true, Bool.false_or] at heo
    obtain ⟨v, hv⟩ := retrieveInputSchema_parse_ok args hb heo
    simp [handleToolCall, runTool, ToolName.name, hv, makeRequestResult,
      hok, hct, hinc, hbody, responseJson, stringifyResult]
  case uploadFile =>
    simp only [ToolName.hasEitherOr, Bool.not_true, Bool.false_or] at heo
    obtain ⟨v, hv⟩ := uploadFile_parse_ok args hb heo
    simp [handleToolCall, runTool, ToolName.name, hv, makeRequestResult,
      hok, hct, hinc, hbody, responseJson, stringifyResult]
  case uploadMultipleFiles =>
    simp only [ToolName.hasEitherOr, Bool.not_true, Bool.false_or] at heo
    obtain ⟨v, hv⟩ := uploadMultipleFiles_parse_ok args hb heo
    simp [handleToolCall, runTool, ToolName.name, hv, makeRequestResult,
      hok, hct, hinc, hbody, responseJson, stringifyResult]

/-- Concrete witness for claim C6: a `listWorkbooks` call whose 200
reply declares `application/json; charset=utf-8` and carries a small
document; the result text is its 2-space re-serialization. -/
theorem claim_C6_witness :
    wf .listWorkbooks [("user_id", Json.str "u1")] = true ∧
    strIncludes "application/json; charset=utf-8" "application/json" = true ∧
    handleToolCall "listWorkbooks" [("user_id", Json.str "u1")]
      ⟨200, "OK", some "application/json; charset=utf-8",
       .jsonDoc (.obj [("state", .str "RUNNING")])⟩ =
      { text := stringify2 (.obj [("state", .str "RUNNING")]),
        isError := false } :=
  ⟨by rfl, by rfl,
   claim_C6 .listWorkbooks (by simp) (by simp)
     [("user_id", Json.str "u1")]
     ⟨200, "OK", some "application/json; charset=utf-8",
      .jsonDoc (.obj [("state", .str "RUNNING")])⟩
     "application/json; charset=utf-8" (.obj [("state", .str "RUNNING")])
     (by rfl) (by rfl) (by rfl) (by rfl) (by rfl)⟩

/-- Claim C7: a call-tool request whose name is not one of the nine
registered tools yields an error-flagged result whose text contains
that very name (`Unknown tool: <name>`); the handler returns it
normally — being a total function it throws nothing — so the server
loop goes on accepting requests. -/
theorem claim_C7 (name : String) (args : Args) (resp : HttpResponse)
    (h : isRegistered name = false) :
    handleToolCall name args resp =
      { text := "Unknown tool: " ++ name, isError := true } := by
  have g1 : name ≠ "startAutomation" := by
    intro hh; subst hh; exact absurd h (by decide)
  have g2 : name ≠ "retrieveRunDetails" := by
    intro hh; subst hh; exact absurd h (by decide)
  have g3 : name ≠ "listSavedFlows" := by
    intro hh; subst hh; exact absurd h (by decide)
  have g4 : name ≠ "listWorkbooks" := by
    intro hh; subst hh; exact absurd h (by decide)
  have g5 : name ≠ "retrieveInputSchema" := by
    intro hh; subst hh; exact absurd h (by decide)
  have g6 : name ≠ "uploadFile" := by
    intro hh; subst hh; exact absurd h (by decide)
  have g7 : name ≠ "uploadMultipleFiles" := by
    intro hh; subst hh; exact absurd h (by decide)
  have g8 : name ≠ "downloadFile" := by
    intro hh; subst hh; exact absurd h (by decide)
  have g9 : name ≠ "downloadMultipleFiles" := by
    intro hh; subst hh; exact absurd h (by decide)
  simp [handleToolCall, runTool, g1, g2, g3, g4, g5, g6, g7, g8, g9]

/-- Concrete witness for claim C7: calling the unregistered name
`fetchTheMoon`. -/
theorem claim_C7_witness :
    isRegistered "fetchTheMoon" = false ∧
    handleToolCall "fetchTheMoon" ([] : Args)
      ⟨200, "OK", none, .binary []⟩ =
      { text := "Unknown tool: " ++ "fetchTheMoon", isError := true } :=
  ⟨by rfl,
   claim_C7 "fetchTheMoon" [] ⟨200, "OK", none, .binary []⟩ (by rfl)⟩

/-- Claim C8: for the two download tools, a call whose remote request
succeeds returns the fixed human-readable confirmation message as its
text — the result is the same whatever bytes the response carried, so
no binary content ever reaches the calling agent. -/
theorem claim_C8 (args : Args) (resp : HttpResponse) (res : ApiResult)
    (hres : makeRequestResult resp = .ok res) :
    (wf .downloadFile args = true →
      handleToolCall "downloadFile" args resp =
        { text := downloadFileMsg, isError := false }) ∧
    (wf .downloadMultipleFiles args = true →
      handleToolCall "downloadMultipleFiles" args resp =
        { text := downloadMultipleFilesMsg, isError := false }) := by
  constructor
  · intro hw
    simp only [wf, Bool.and_eq_true] at hw
    obtain ⟨v, hv⟩ := downloadFile_parse_ok args hw.1
    simp [handleToolCall, runTool, hv, hres]
  · intro hw
    simp only [wf, Bool.and_eq_true] at hw
    obtain ⟨hb, heo⟩ := hw
    simp only [ToolName.hasEitherOr, Bool.not_true, Bool.false_or] at heo
    obtain ⟨v, hv⟩ := downloadMultipleFiles_parse_ok args hb heo
    simp [handleToolCall, runTool, hv, hres]

/-- Concrete witness for claim C8: both download tools succeeding on a
binary (zip) response; each returns its fixed message, with the
response bytes nowhere in the result. -/
theorem claim_C8_witness :
    makeRequestResult ⟨200, "OK", some "application/zip", .binary [80, 75]⟩ =
      .ok (.buffer [80, 75]) ∧
    wf .downloadFile
      [("file_name", Json.str "f"), ("run_id", Json.str "r"),
       ("saved_item_id", Json.str "s")] = true ∧
    handleToolCall "downloadFile"
      [("file_name", Json.str "f"), ("run_id", Json.str "r"),
       ("saved_item_id", Json.str "s")]
      ⟨200, "OK", some "application/zip", .binary [80, 75]⟩ =
      { text := downloadFileMsg, isError := false } ∧
    wf .downloadMultipleFiles
      [("file_names", Json.arr [.str "a"]), ("run_id", Json.str "r"),
       ("user_id", Json.str "u1")] = true ∧
    handleToolCall "downloadMultipleFiles"
      [("file_names", Json.arr [.str "a"]), ("run_id", Json.str "r"),
       ("user_id", Json.str "u1")]
      ⟨200, "OK", some "application/zip", .binary [80, 75]⟩ =
      { text := downloadMultipleFilesMsg, isError := false } :=
  ⟨by rfl, by rfl,
   (claim_C8
     [("file_name", Json.str "f"), ("run_id", Json.str "r"),
      ("saved_item_id", Json.str "s")]
     ⟨200, "OK", some "application/zip", .binary [80, 75]⟩
     (.buffer [80, 75]) (by rfl)).1 (by rfl),
   by rfl,
   (claim_C8
     [("file_names", Json.arr [.str "a"]), ("run_id", Json.str "r"),
      ("user_id", Json.str "u1")]
     ⟨200, "OK", some "application/zip", .binary [80, 75]⟩
     (.buffer [80, 75]) (by rfl)).2 (by rfl)⟩

/-- Claim C9: with `GUMLOOP_API_KEY` absent from the environment, the
`GumloopAPI` constructor throws its configuration error, and the
process exits with status 1 (non-zero) after logging the fatal error to
standard error — it never reaches the serving state, so no call is ever
accepted. -/
theorem claim_C9 :
    gumloopAPIInit none =
      .error "GUMLOOP_API_KEY environment variable is required" ∧
    mainStartup none =
      .exited 1 ("Fatal error in main(): Error: " ++
        "GUMLOOP_API_KEY environment variable is required") ∧
    (1 : Nat) ≠ 0 ∧
    ∀ k, mainStartup none ≠ .serving k := by
  refine ⟨rfl, rfl, by simp, fun k => ?_⟩
  simp [mainStartup, gumloopAPIInit]

end GML
